import Mathlib

/-!
# bq27510 fuel-gauge driver: shallow embedding and verified properties

Source: `drivers/power/bq27510_battery.c`. The transfer-size adjustment of
`sound/soc/omap/omap-mcbsp.c` and the board tests of `mach/board-boxer.h`
follow in namespaces of their own.

Modelling conventions

* C `int` values are `Int`; no arithmetic below leaves the 32-bit range (the
  largest magnitude formed from a 16-bit register is `65535 * 1000`).
* `uint8_t` cache bytes are `Fin 256`; the cache `regbuf` is a list of bytes.
  Reading an index outside the list is outside C semantics; the model reads 0
  there (every register constant of the driver is inside the 0x36 bytes).
* An output parameter `int *rt_value` is modelled by passing the old value in
  and returning the new value next to the return code.
* `client->adapter` only matters as NULL / non-NULL and is a `Bool`.
* Log output (`dev_err`, `dev_dbg`, `printk`) is not modelled.
-/

set_option autoImplicit false

namespace Bq27510

/-! ## Constants of the driver -/

def T_POLL_MS : Nat := 30000
def T_POLL_PLUG_MS : Nat := 500
def T_POLL_PLUG_MAX : Int := 10

def USB_CURRENT_LIMIT_LOW : Int := 100000
def USB_CURRENT_LIMIT_HIGH : Int := 500000
def AC_CURRENT_LIMIT : Int := 1500000

def BQ27510_REG_ATRATE : Nat := 0x02
def BQ27510_REG_TEMP : Nat := 0x06
def BQ27510_REG_VOLT : Nat := 0x08
def BQ27510_REG_RSOC : Nat := 0x2C
def BQ27510_REG_AI : Nat := 0x14
def BQ27510_REG_FLAGS : Nat := 0x0A
def BQ27510_REG_TTE : Nat := 0x16
def BQ27510_REG_TTF : Nat := 0x18
def BQ27510_REG_FCC : Nat := 0x12

def BQ27510_REG_BUFFER_START : Nat := BQ27510_REG_ATRATE
def BQ27510_REG_BUFFER_SIZE : Nat := 0x36

def OFFSET_KELVIN_CELSIUS_DECI : Int := 2731
def CURRENT_OVF_THRESHOLD : Int := (1 <<< 15 : Nat) - 1

def FLAG_BIT_DSG : Nat := 0
def FLAG_BIT_BAT_DET : Nat := 3
def FLAG_BIT_CHG : Nat := 8
def FLAG_BIT_FC : Nat := 9
def FLAG_BIT_XCHG : Nat := 10
def FLAG_BIT_CHG_INH : Nat := 11
def FLAG_BIT_OTD : Nat := 14
def FLAG_BIT_OTC : Nat := 15

/-! ## Constants of kernel headers that are not part of the sources -/

/-- Modelled from the spec: `errno` numbers of the kernel's `errno-base.h`,
which is not among the sources; the driver only returns them negated. -/
def EIO : Int := 5
/-- Modelled from the spec: see `EIO`. -/
def EBUSY : Int := 16
/-- Modelled from the spec: see `EIO`. -/
def ENODEV : Int := 19
/-- Modelled from the spec: see `EIO`. -/
def EINVAL : Int := 22

/-- Modelled from the spec: the charging states of `linux/power_supply.h`
(not among the sources), an anonymous enum counted from `UNKNOWN = 0`. -/
def POWER_SUPPLY_STATUS_UNKNOWN : Int := 0
/-- Modelled from the spec: see `POWER_SUPPLY_STATUS_UNKNOWN`. -/
def POWER_SUPPLY_STATUS_CHARGING : Int := 1
/-- Modelled from the spec: see `POWER_SUPPLY_STATUS_UNKNOWN`. -/
def POWER_SUPPLY_STATUS_DISCHARGING : Int := 2
/-- Modelled from the spec: see `POWER_SUPPLY_STATUS_UNKNOWN`. -/
def POWER_SUPPLY_STATUS_NOT_CHARGING : Int := 3
/-- Modelled from the spec: see `POWER_SUPPLY_STATUS_UNKNOWN`. -/
def POWER_SUPPLY_STATUS_FULL : Int := 4

/-- Modelled from the spec: the health states of `linux/power_supply.h`
(not among the sources), an anonymous enum counted from `UNKNOWN = 0`. -/
def POWER_SUPPLY_HEALTH_UNKNOWN : Int := 0
/-- Modelled from the spec: see `POWER_SUPPLY_HEALTH_UNKNOWN`. -/
def POWER_SUPPLY_HEALTH_GOOD : Int := 1
/-- Modelled from the spec: see `POWER_SUPPLY_HEALTH_UNKNOWN`. -/
def POWER_SUPPLY_HEALTH_OVERHEAT : Int := 2
/-- Modelled from the spec: see `POWER_SUPPLY_HEALTH_UNKNOWN`. -/
def POWER_SUPPLY_HEALTH_UNSPEC_FAILURE : Int := 5
/-- Modelled from the spec: see `POWER_SUPPLY_HEALTH_UNKNOWN`. -/
def POWER_SUPPLY_HEALTH_COLD : Int := 6

/-- Modelled from the spec: `enum power_supply_type` of `linux/power_supply.h`
(not among the sources): battery-only, UPS, mains, USB. -/
def POWER_SUPPLY_TYPE_BATTERY : Int := 0
/-- Modelled from the spec: see `POWER_SUPPLY_TYPE_BATTERY`. -/
def POWER_SUPPLY_TYPE_MAINS : Int := 2
/-- Modelled from the spec: see `POWER_SUPPLY_TYPE_BATTERY`. -/
def POWER_SUPPLY_TYPE_USB : Int := 3

/-! ## Device session -/

/-- The fields of `struct bq27510_device_info` that the modelled code reads or
writes. `client_adapter` is `di->client->adapter != NULL`. -/
structure bq27510_device_info where
  rapid_poll_cycle : Int := 0
  client_adapter : Bool := true
  regbuf : List (Fin 256) := List.replicate 0x36 0
  sys_device_type : Int := 0
  sys_fw_version : Int := 0
  sys_hw_version : Int := 0
  gpio_ce : Int := 0
  deriving DecidableEq, Repr

/-- The C expression `di->regbuf[i]`, promoted to `int`. -/
def regbuf_at (di : bq27510_device_info) (i : Nat) : Nat :=
  (di.regbuf.getD i 0).val

/-- Source `bq27x10_read`: get a cached register value. Returns the return
code and the content of `*rt_value` after the call. -/
def bq27x10_read (reg : Nat) (rt_value : Int) (b_single : Bool)
    (di : bq27510_device_info) : Int × Int :=
  if !di.client_adapter then (-ENODEV, rt_value)
  else if b_single then (0, (regbuf_at di reg : Int))
  else (0, ((regbuf_at di reg + (regbuf_at di (reg + 1) <<< 8) : Nat) : Int))

/-- Source `bq27510_battery_temperature`: temperature in 0.1 K, or the
negative read error. -/
def bq27510_battery_temperature (di : bq27510_device_info) : Int :=
  let r := bq27x10_read BQ27510_REG_TEMP 0 false di
  if r.1 ≠ 0 then r.1 else r.2

/-- Source `bq27510_battery_voltage`: voltage in mV, or the negative read
error. -/
def bq27510_battery_voltage (di : bq27510_device_info) : Int :=
  let r := bq27x10_read BQ27510_REG_VOLT 0 false di
  if r.1 ≠ 0 then r.1 else r.2

/-- Source `bq27510_battery_current`: signed average current, 0 when the read
fails. -/
def bq27510_battery_current (di : bq27510_device_info) : Int :=
  let r := bq27x10_read BQ27510_REG_AI 0 false di
  if r.1 ≠ 0 then 0
  else
    let curr := r.2
    if curr > CURRENT_OVF_THRESHOLD then curr - (((1 <<< 16 : Nat) : Int) - 1) else curr

/-- Source `bq27510_battery_supply_prop_present`: 1 when the battery-detect
flag is set, 0 when it is clear, the negative read error otherwise. -/
def bq27510_battery_supply_prop_present (di : bq27510_device_info) : Int :=
  let r := bq27x10_read BQ27510_REG_FLAGS 0 false di
  if r.1 ≠ 0 then r.1
  else if Int.land r.2 ((1 <<< FLAG_BIT_BAT_DET : Nat) : Int) ≠ 0 then 1 else 0

/-- Source `bq27510_battery_rsoc`: relative state of charge. -/
def bq27510_battery_rsoc (di : bq27510_device_info) : Int :=
  let r := bq27x10_read BQ27510_REG_RSOC 0 false di
  if r.1 ≠ 0 then 100
  else
    let rsoc := r.2
    let rsoc :=
      if rsoc = 0 ∨ rsoc = 0xffff then
        (if bq27510_battery_supply_prop_present di = 0 then 100 else rsoc)
      else rsoc
    if rsoc < 0 then 1
    else if rsoc > 100 then 100
    else rsoc

/-- Source `bq27510_battery_status`. -/
def bq27510_battery_status (di : bq27510_device_info) : Int :=
  let r := bq27x10_read BQ27510_REG_FLAGS 0 false di
  if r.1 ≠ 0 then r.1
  else
    let curr := bq27510_battery_current di
    let flags := r.2
    if Int.land flags ((1 <<< FLAG_BIT_FC : Nat) : Int) ≠ 0 then
      POWER_SUPPLY_STATUS_FULL
    else if Int.land flags ((1 <<< FLAG_BIT_DSG : Nat) : Int) ≠ 0 ∧ curr < 0 then
      POWER_SUPPLY_STATUS_DISCHARGING
    else if Int.land flags ((1 <<< FLAG_BIT_CHG : Nat) : Int) ≠ 0 ∧ curr > 0 then
      POWER_SUPPLY_STATUS_CHARGING
    else
      POWER_SUPPLY_STATUS_NOT_CHARGING

/-- Source `bq27510_battery_health`. -/
def bq27510_battery_health (di : bq27510_device_info) : Int :=
  let r := bq27x10_read BQ27510_REG_FLAGS 0 false di
  if r.1 ≠ 0 then r.1
  else
    let flags := r.2
    if Int.land flags ((1 <<< FLAG_BIT_OTC : Nat) : Int) ≠ 0 then
      POWER_SUPPLY_HEALTH_OVERHEAT
    else if Int.land flags ((1 <<< FLAG_BIT_OTD : Nat) : Int) ≠ 0 then
      POWER_SUPPLY_HEALTH_OVERHEAT
    else if Int.land flags
        (((1 <<< FLAG_BIT_XCHG) ||| (1 <<< FLAG_BIT_CHG_INH) : Nat) : Int) ≠ 0 then
      let t := bq27510_battery_temperature di
      if t < OFFSET_KELVIN_CELSIUS_DECI then POWER_SUPPLY_HEALTH_COLD
      else POWER_SUPPLY_HEALTH_OVERHEAT
    else
      POWER_SUPPLY_HEALTH_GOOD

/-! ## Reading the specification's words -/

/-- The raw 16-bit register at device offset `reg` as the specification reads
the cache: the little-endian pair of the bytes at `reg` and `reg + 1`. -/
def raw16 (di : bq27510_device_info) (reg : Nat) : Nat :=
  regbuf_at di reg + 256 * regbuf_at di (reg + 1)

/-- A cache of `BQ27510_REG_BUFFER_SIZE` bytes that is zero except for the
listed 16-bit values, each stored little-endian at its register offset. -/
def cacheOf : List (Nat × Nat) → List (Fin 256)
  | [] => List.replicate 0x36 0
  | (reg, v) :: rest =>
      ((cacheOf rest).set reg (Fin.ofNat v)).set (reg + 1) (Fin.ofNat (v / 256))

/-- A session with a bus adapter and the cache `cacheOf regs`. -/
def sessionWith (regs : List (Nat × Nat)) : bq27510_device_info :=
  { regbuf := cacheOf regs }

/-! ## Properties and the two charger sources -/

/-- Modelled from the spec: `enum power_supply_property` of
`linux/power_supply.h`, which is not among the sources: the property ids the
driver names, and further ids of the kernel's enum that it does not handle. -/
inductive power_supply_property where
  | POWER_SUPPLY_PROP_STATUS
  | POWER_SUPPLY_PROP_HEALTH
  | POWER_SUPPLY_PROP_PRESENT
  | POWER_SUPPLY_PROP_ONLINE
  | POWER_SUPPLY_PROP_TECHNOLOGY
  | POWER_SUPPLY_PROP_VOLTAGE_MAX
  | POWER_SUPPLY_PROP_VOLTAGE_MIN
  | POWER_SUPPLY_PROP_VOLTAGE_NOW
  | POWER_SUPPLY_PROP_VOLTAGE_AVG
  | POWER_SUPPLY_PROP_CURRENT_NOW
  | POWER_SUPPLY_PROP_CURRENT_AVG
  | POWER_SUPPLY_PROP_CHARGE_FULL_DESIGN
  | POWER_SUPPLY_PROP_CHARGE_FULL
  | POWER_SUPPLY_PROP_CHARGE_NOW
  | POWER_SUPPLY_PROP_ENERGY_NOW
  | POWER_SUPPLY_PROP_CAPACITY
  | POWER_SUPPLY_PROP_CAPACITY_LEVEL
  | POWER_SUPPLY_PROP_TEMP
  | POWER_SUPPLY_PROP_TEMP_AMBIENT
  | POWER_SUPPLY_PROP_TIME_TO_EMPTY_NOW
  | POWER_SUPPLY_PROP_TIME_TO_EMPTY_AVG
  | POWER_SUPPLY_PROP_TIME_TO_FULL_NOW
  | POWER_SUPPLY_PROP_TIME_TO_FULL_AVG
  | POWER_SUPPLY_PROP_STATE_OF_HEALTH
  | POWER_SUPPLY_PROP_DATALOG_INDEX
  | POWER_SUPPLY_PROP_DATALOG_BUFFER
  | POWER_SUPPLY_PROP_NOMINAL_CAPACITY
  | POWER_SUPPLY_PROP_MODEL_NAME
  | POWER_SUPPLY_PROP_MANUFACTURER
  | POWER_SUPPLY_PROP_SERIAL_NUMBER
  deriving DecidableEq, Repr

open power_supply_property

/-- The three `struct power_supply` records embedded in a session. -/
inductive power_supply where
  | bat
  | usb
  | wall
  deriving DecidableEq, Repr

/-- The result of one `i2c_transfer` call of `bq27x10_read_registers`, as far
as the driver can observe it: the return value `stat` (a negative errno, else
the number of messages executed) and the bytes `rx` that the adapter stored,
in order, from the start of the read message's buffer before it returned. The
bus core is not part of the sources and the transfer is a parameter of the
model. -/
structure i2c_result where
  stat : Int
  rx : List (Fin 256)
  deriving DecidableEq, Repr

/-- Bytes stored by the adapter into a buffer starting at index `off`. -/
def i2c_store : List (Fin 256) → Nat → List (Fin 256) → List (Fin 256)
  | buf, _, [] => buf
  | buf, off, x :: xs => i2c_store (buf.set off x) (off + 1) xs

/-- Source `bq27x10_read_registers`: one bulk transfer whose read message has
`.buf = di->regbuf + BQ27510_REG_BUFFER_START` and
`.len = BQ27510_REG_BUFFER_SIZE - BQ27510_REG_BUFFER_START`. `g_pause_i2c` is
the sysfs switch of the Gossamer configuration (always 0 without it). -/
def bq27x10_read_registers (bus : i2c_result) (g_pause_i2c : Nat)
    (di : bq27510_device_info) : Int × bq27510_device_info :=
  if g_pause_i2c = 1 then (-EBUSY, di)
  else
    let len := BQ27510_REG_BUFFER_SIZE - BQ27510_REG_BUFFER_START
    let di1 := { di with
      regbuf := i2c_store di.regbuf BQ27510_REG_BUFFER_START (bus.rx.take len) }
    let stat := bus.stat
    if stat < 0 then (stat, di1)
    else if stat ≠ 2 then (- EIO, di1)
    else (0, di1)

/-- The process-wide state of the driver together with its single session:
the globals `bq27x10_type`, `local_di` (NULL or pointing at the session `di`)
and `g_pause_i2c`, the pending delayed work `bat_work` (its delay in ms, if
one is scheduled) and the `power_supply_changed` notifications issued so far,
oldest first. -/
structure driver_state where
  bq27x10_type : Int := POWER_SUPPLY_TYPE_BATTERY
  local_di : Bool := false
  g_pause_i2c : Nat := 0
  di : bq27510_device_info := {}
  bat_work : Option Nat := none
  changed : List power_supply := []
  deriving DecidableEq, Repr

/-- Source `bq27x10_charger_type`. Cancelling and scheduling the delayed work
replaces whatever was pending by one run after `T_POLL_PLUG_MS`. -/
def bq27x10_charger_type (limit : Int) (s : driver_state) : driver_state :=
  let t := POWER_SUPPLY_TYPE_BATTERY
  let t := if limit = USB_CURRENT_LIMIT_HIGH then POWER_SUPPLY_TYPE_USB else t
  let t := if limit = AC_CURRENT_LIMIT then POWER_SUPPLY_TYPE_MAINS else t
  if s.local_di then
    { s with
      bq27x10_type := t
      di := { s.di with rapid_poll_cycle := 0 }
      bat_work := some T_POLL_PLUG_MS }
  else { s with bq27x10_type := t }

/-- Source `bq27x10_bat_work`: one run of the poll task; `bus` is what the
bulk transfer of this run does. -/
def bq27x10_bat_work (bus : i2c_result) (s : driver_state) : driver_state :=
  if s.local_di then
    let di := (bq27x10_read_registers bus s.g_pause_i2c s.di).2
    let changed := s.changed ++ [power_supply.bat, power_supply.usb, power_supply.wall]
    if di.rapid_poll_cycle < T_POLL_PLUG_MAX then
      { s with
        di := { di with rapid_poll_cycle := di.rapid_poll_cycle + 1 }
        changed := changed
        bat_work := some T_POLL_PLUG_MS }
    else
      { s with di := di, changed := changed, bat_work := some T_POLL_MS }
  else { s with bat_work := some T_POLL_MS }

/-- Source `bq27510_battery_resume`, by its writes: the values it reads are
only logged. Its `cancel_delayed_work_sync (&local_di->bat_work)` presupposes
a bound session, which is the only situation in which the callback runs. -/
def bq27510_battery_resume (s : driver_state) : Int × driver_state :=
  (0, { s with
        di := { s.di with rapid_poll_cycle := 0 }
        bat_work := some T_POLL_PLUG_MS })

/-- Source `bq27510_usb_get_property`: return code and `val->intval` after
the call. -/
def bq27510_usb_get_property (psp : power_supply_property) (intval : Int)
    (s : driver_state) : Int × Int :=
  match psp with
  | POWER_SUPPLY_PROP_ONLINE =>
      (0, if s.bq27x10_type = POWER_SUPPLY_TYPE_USB then 1 else 0)
  | POWER_SUPPLY_PROP_CURRENT_AVG => (0, USB_CURRENT_LIMIT_HIGH)
  | _ => (-EINVAL, intval)

/-- Source `bq27510_wall_get_property`: return code and `val->intval` after
the call. -/
def bq27510_wall_get_property (psp : power_supply_property) (intval : Int)
    (s : driver_state) : Int × Int :=
  match psp with
  | POWER_SUPPLY_PROP_ONLINE =>
      (0, if s.bq27x10_type = POWER_SUPPLY_TYPE_MAINS then 1 else 0)
  | POWER_SUPPLY_PROP_CURRENT_AVG => (0, AC_CURRENT_LIMIT)
  | _ => (-EINVAL, intval)

/-! ## Runs of the driver -/

/-- The entry points that touch the rapid-poll counter after attach. -/
inductive driver_event where
  | poll (bus : i2c_result)
  | charger (limit : Int)
  | resume
  deriving DecidableEq, Repr

/-- One entry point applied to the driver state. -/
def driver_step (s : driver_state) : driver_event → driver_state
  | driver_event.poll bus => bq27x10_bat_work bus s
  | driver_event.charger limit => bq27x10_charger_type limit s
  | driver_event.resume => (bq27510_battery_resume s).2

/-- A sequence of entry points, applied left to right. -/
def driver_run (s : driver_state) (evs : List driver_event) : driver_state :=
  evs.foldl driver_step s

/-- The state left by a successful `bq27510_battery_probe`: the session
memory is zeroed (`kzalloc`), the cache holds the first bulk read, the first
poll is scheduled after `T_POLL_MS` and `local_di` points at the session. -/
def attached (regbuf : List (Fin 256)) : driver_state :=
  { local_di := true
    di := { regbuf := regbuf }
    bat_work := some T_POLL_MS }

/-- Consecutive poll runs, one per bus outcome, with nothing in between. -/
def poll_runs (s : driver_state) (buses : List i2c_result) : driver_state :=
  buses.foldl (fun st bus => bq27x10_bat_work bus st) s

/-! ## Battery source

The driver only builds with `CONFIG_BATTERY_BQ27520` and
`CONFIG_MACH_OMAP3621_GOSSAMER` defined (`bq27510_battery_resume` uses `ncap`
and `hw_reset_store` uses `g_pause_i2c` outside their guards); the property
query below is the one of that configuration. -/

def BQ27510_REG_SOH : Nat := 0x28
def BQ27510_REG_SOH_STATUS : Nat := 0x29
def BQ27510_REG_DATALOG_INDEX : Nat := 0x32
def BQ27510_REG_DATALOG_BUFFER : Nat := 0x34
def BQ27510_REG_NOMINAL_CAPACITY : Nat := 0x0C

/-- Modelled from the spec: `POWER_SUPPLY_TECHNOLOGY_LION` of
`linux/power_supply.h` (not among the sources); the technology enum counts
UNKNOWN, NiMH, LION from 0. -/
def POWER_SUPPLY_TECHNOLOGY_LION : Int := 2

/-- Modelled from the spec: `union power_supply_propval` of
`linux/power_supply.h` (not among the sources), which holds either an `int`
or a string. -/
inductive power_supply_propval where
  | intval (v : Int)
  | strval (name : String)
  deriving DecidableEq, Repr

/-- Source table `manufacturer_name`. -/
def manufacturer_name : List String :=
  ["McNair", "Lico", "Lishen", "Absent", "Unknown"]

/-- Source `bq27510_battery_time_to_empty_now`. -/
def bq27510_battery_time_to_empty_now (di : bq27510_device_info) : Int :=
  let r := bq27x10_read BQ27510_REG_TTE 0 false di
  if r.1 ≠ 0 then r.1 else r.2

/-- Source `bq27510_battery_time_to_full_now`. -/
def bq27510_battery_time_to_full_now (di : bq27510_device_info) : Int :=
  let r := bq27x10_read BQ27510_REG_TTF 0 false di
  if r.1 ≠ 0 then r.1 else r.2

/-- Source `bq27510_battery_max_level`: full-charge capacity in mAh. -/
def bq27510_battery_max_level (di : bq27510_device_info) : Int :=
  let r := bq27x10_read BQ27510_REG_FCC 0 false di
  if r.1 ≠ 0 then r.1 else r.2

/-- Source `bq27510_battery_health_percent`: a single-byte read. -/
def bq27510_battery_health_percent (di : bq27510_device_info) : Int :=
  let r := bq27x10_read BQ27510_REG_SOH 0 true di
  if r.1 ≠ 0 then r.1 else r.2

/-- Source `bq27510_battery_datalog_index`. -/
def bq27510_battery_datalog_index (di : bq27510_device_info) : Int :=
  let r := bq27x10_read BQ27510_REG_DATALOG_INDEX 0 false di
  if r.1 ≠ 0 then r.1 else r.2

/-- Source `bq27510_battery_datalog_buffer`. -/
def bq27510_battery_datalog_buffer (di : bq27510_device_info) : Int :=
  let r := bq27x10_read BQ27510_REG_DATALOG_BUFFER 0 false di
  if r.1 ≠ 0 then r.1 else r.2

/-- Source `bq27510_battery_nominal_capacity`. -/
def bq27510_battery_nominal_capacity (di : bq27510_device_info) : Int :=
  let r := bq27x10_read BQ27510_REG_NOMINAL_CAPACITY 0 false di
  if r.1 ≠ 0 then r.1 else r.2

/-- The last statement of `bq27510_battery_get_property`:
`ret = (ret < 0) ? ret : 0`. -/
def get_property_ret (ret : Int) : Int :=
  if ret < 0 then ret else 0

/-- Source `bq27510_battery_get_property`: return code and `*val` after the
call. `manufacturer_id` is the global set at probe time. -/
def bq27510_battery_get_property (psp : power_supply_property)
    (val : power_supply_propval) (manufacturer_id : Nat)
    (di : bq27510_device_info) : Int × power_supply_propval :=
  match psp with
  | POWER_SUPPLY_PROP_STATUS =>
      let v := bq27510_battery_status di
      (get_property_ret 0,
        power_supply_propval.intval (if v < 0 then POWER_SUPPLY_STATUS_UNKNOWN else v))
  | POWER_SUPPLY_PROP_HEALTH =>
      let v := bq27510_battery_health di
      (get_property_ret 0,
        power_supply_propval.intval (if v < 0 then POWER_SUPPLY_HEALTH_UNSPEC_FAILURE else v))
  | POWER_SUPPLY_PROP_TECHNOLOGY =>
      (get_property_ret POWER_SUPPLY_TECHNOLOGY_LION,
        power_supply_propval.intval POWER_SUPPLY_TECHNOLOGY_LION)
  | POWER_SUPPLY_PROP_VOLTAGE_NOW =>
      let v := bq27510_battery_voltage di * 1000
      (get_property_ret v, power_supply_propval.intval v)
  | POWER_SUPPLY_PROP_DATALOG_INDEX =>
      (get_property_ret 0, power_supply_propval.intval (bq27510_battery_datalog_index di))
  | POWER_SUPPLY_PROP_DATALOG_BUFFER =>
      (get_property_ret 0, power_supply_propval.intval (bq27510_battery_datalog_buffer di))
  | POWER_SUPPLY_PROP_STATE_OF_HEALTH =>
      (get_property_ret 0, power_supply_propval.intval (bq27510_battery_health_percent di))
  | POWER_SUPPLY_PROP_NOMINAL_CAPACITY =>
      (get_property_ret 0, power_supply_propval.intval (bq27510_battery_nominal_capacity di))
  | POWER_SUPPLY_PROP_CURRENT_AVG =>
      (get_property_ret 0, power_supply_propval.intval (bq27510_battery_current di * 1000))
  | POWER_SUPPLY_PROP_CURRENT_NOW =>
      (get_property_ret 0, power_supply_propval.intval (bq27510_battery_current di * 1000))
  | POWER_SUPPLY_PROP_CAPACITY =>
      let v := bq27510_battery_rsoc di
      (get_property_ret v, power_supply_propval.intval v)
  | POWER_SUPPLY_PROP_TEMP =>
      let v := bq27510_battery_temperature di
      (get_property_ret v, power_supply_propval.intval (v - OFFSET_KELVIN_CELSIUS_DECI))
  | POWER_SUPPLY_PROP_PRESENT =>
      let v := bq27510_battery_supply_prop_present di
      (get_property_ret 0, power_supply_propval.intval (if v < 0 then 0 else v))
  | POWER_SUPPLY_PROP_TIME_TO_EMPTY_NOW =>
      let v := bq27510_battery_time_to_empty_now di
      (get_property_ret v, power_supply_propval.intval v)
  | POWER_SUPPLY_PROP_TIME_TO_FULL_NOW =>
      let v := bq27510_battery_time_to_full_now di
      (get_property_ret v, power_supply_propval.intval v)
  | POWER_SUPPLY_PROP_CHARGE_FULL =>
      let v := bq27510_battery_max_level di * 1000
      (get_property_ret v, power_supply_propval.intval v)
  | POWER_SUPPLY_PROP_MANUFACTURER =>
      (get_property_ret 0,
        power_supply_propval.strval (manufacturer_name.getD manufacturer_id ""))
  | _ => (-EINVAL, val)

/-- Celsius-tenths as the specification derives them from the raw
temperature register. -/
def celsius_tenths (raw : Nat) : Int :=
  (raw : Int) - 2731

/-! ## Decision lists of the specification -/

/-- Status as the specification derives it from the flags word and the signed
current, in its fixed order. -/
def status_decision_list (flags : Nat) (curr : Int) : Int :=
  if flags.testBit 9 = true then POWER_SUPPLY_STATUS_FULL
  else if flags.testBit 0 = true ∧ curr < 0 then POWER_SUPPLY_STATUS_DISCHARGING
  else if flags.testBit 8 = true ∧ curr > 0 then POWER_SUPPLY_STATUS_CHARGING
  else POWER_SUPPLY_STATUS_NOT_CHARGING

/-- Health as the specification derives it from the flags word and the raw
temperature. -/
def health_decision_list (flags : Nat) (temp : Nat) : Int :=
  if flags.testBit 15 = true ∨ flags.testBit 14 = true then POWER_SUPPLY_HEALTH_OVERHEAT
  else if flags.testBit 10 = true ∨ flags.testBit 11 = true then
    (if temp < 2731 then POWER_SUPPLY_HEALTH_COLD else POWER_SUPPLY_HEALTH_OVERHEAT)
  else POWER_SUPPLY_HEALTH_GOOD

/-- Charger classification as the specification states it. -/
def classify_limit (limit : Int) : Int :=
  if limit = 500000 then POWER_SUPPLY_TYPE_USB
  else if limit = 1500000 then POWER_SUPPLY_TYPE_MAINS
  else POWER_SUPPLY_TYPE_BATTERY

/-! ## Startup identification -/

def BQ27x00_CONTROL_DEVICE_TYPE : Nat := 0x0001
def BQ27x00_CONTROL_FW_VERSION : Nat := 0x0002

/-- What the bus does during one call of `bq27200_read_control`: the return
values of its three `i2c_transfer` calls (sub-command write, register select,
two-byte read) and the two bytes the last one stores. The bus core is not
part of the sources and the transfers are a parameter of the model. -/
structure control_xfer where
  stat1 : Int
  stat2 : Int
  stat3 : Int
  data0 : Fin 256
  data1 : Fin 256
  deriving DecidableEq, Repr

/-- Source `bq27200_read_control`: return code and `*rt_value` after the
call. A later transfer is only issued when the one before did not fail. -/
def bq27200_read_control (x : control_xfer) (rt_value : Int)
    (di : bq27510_device_info) : Int × Int :=
  if !di.client_adapter then (-ENODEV, rt_value)
  else
    let err := x.stat1
    if err ≥ 0 then
      let err := x.stat2
      if err ≥ 0 then
        let err := x.stat3
        if err ≥ 0 then (0, ((x.data0.val ||| (x.data1.val <<< 8) : Nat) : Int))
        else (err, rt_value)
      else (err, rt_value)
    else (err, rt_value)

/-- What `bq27x00_get_device_version` does that is visible outside the
session: control reads, by sub-command, and calls of `bq27x00_hw_reset`
(`pulsed` tells whether `gpio_ce` was valid, so that the chip-enable line was
really driven). -/
inductive ident_event where
  | read_control (subcmd : Nat)
  | hw_reset (pulsed : Bool)
  deriving DecidableEq, Repr

/-- The body of the do-while loop of `bq27x00_get_device_version`: one
device-type read, followed by `bq27x00_hw_reset` when it failed. -/
def device_type_attempt (x : control_xfer) (di : bq27510_device_info)
    (trace : List ident_event) : bq27510_device_info × List ident_event :=
  let r := bq27200_read_control x di.sys_device_type di
  let di1 := { di with sys_device_type := r.2 }
  let trace1 := trace ++ [ident_event.read_control BQ27x00_CONTROL_DEVICE_TYPE]
  if r.1 < 0 then (di1, trace1 ++ [ident_event.hw_reset (di.gpio_ce != -1)])
  else (di1, trace1)

/-- The loop `do { ... } while (retry_counter-- > 0)` of
`bq27x00_get_device_version`, by recursion on the value of `retry_counter`
when the body is entered; `bus k` is what the bus does during the k-th
control read and `k` counts the control reads made so far. -/
def device_type_loop (bus : Nat → control_xfer) :
    Nat → Nat → bq27510_device_info → List ident_event →
      bq27510_device_info × List ident_event
  | 0, k, di, trace => device_type_attempt (bus k) di trace
  | retry_counter + 1, k, di, trace =>
      let s := device_type_attempt (bus k) di trace
      device_type_loop bus retry_counter (k + 1) s.1 s.2

/-- Source `bq27x00_get_device_version`: return code, session and the
sequence of control reads and resets. -/
def bq27x00_get_device_version (bus : Nat → control_xfer) (di : bq27510_device_info) :
    Int × bq27510_device_info × List ident_event :=
  let s := device_type_loop bus 3 0 di []
  let r := bq27200_read_control (bus 4) s.1.sys_fw_version s.1
  (r.1, { s.1 with sys_fw_version := r.2 },
    s.2 ++ [ident_event.read_control BQ27x00_CONTROL_FW_VERSION])

/-- A control read in which all three transfers execute their one message
and the chip answers 0x0520. -/
def control_ok : control_xfer :=
  { stat1 := 1, stat2 := 1, stat3 := 1, data0 := 0x20, data1 := 0x05 }

/-- A control read whose first transfer fails with -121. -/
def control_fail : control_xfer :=
  { stat1 := -121, stat2 := 1, stat3 := 1, data0 := 0, data1 := 0 }

/-- The number of device-type reads in a trace. -/
def device_type_reads (trace : List ident_event) : Nat :=
  trace.count (ident_event.read_control BQ27x00_CONTROL_DEVICE_TYPE)

/-! ## Supported properties and derivation offsets -/

/-- Source table `bq27510_battery_props`. -/
def bq27510_battery_props : List power_supply_property :=
  [POWER_SUPPLY_PROP_STATUS, POWER_SUPPLY_PROP_HEALTH, POWER_SUPPLY_PROP_TECHNOLOGY,
   POWER_SUPPLY_PROP_PRESENT, POWER_SUPPLY_PROP_VOLTAGE_NOW, POWER_SUPPLY_PROP_CURRENT_AVG,
   POWER_SUPPLY_PROP_STATE_OF_HEALTH, POWER_SUPPLY_PROP_DATALOG_INDEX,
   POWER_SUPPLY_PROP_DATALOG_BUFFER, POWER_SUPPLY_PROP_NOMINAL_CAPACITY,
   POWER_SUPPLY_PROP_CURRENT_NOW, POWER_SUPPLY_PROP_CAPACITY, POWER_SUPPLY_PROP_TEMP,
   POWER_SUPPLY_PROP_TIME_TO_EMPTY_NOW, POWER_SUPPLY_PROP_TIME_TO_FULL_NOW,
   POWER_SUPPLY_PROP_CHARGE_FULL, POWER_SUPPLY_PROP_MANUFACTURER]

/-- The register offsets read by the 16-bit property derivations:
temperature, voltage, flags, full-charge capacity, average current,
time-to-empty, time-to-full, relative state of charge. -/
def derivation_regs : List Nat :=
  [BQ27510_REG_TEMP, BQ27510_REG_VOLT, BQ27510_REG_FLAGS, BQ27510_REG_FCC, BQ27510_REG_AI,
   BQ27510_REG_TTE, BQ27510_REG_TTF, BQ27510_REG_RSOC]

end Bq27510

/-! # McBSP DAI: transfer-size adjustment

Source: `sound/soc/omap/omap-mcbsp.c`, `omap_mcbsp_dai_hw_params`. -/

namespace OmapMcbsp

/-- The C expression `a / b` on `int`: truncating division, undefined for a
zero divisor. -/
def c_div (a b : Int) : Option Int :=
  if b = 0 then none else some (Int.tdiv a b)

/-- The C expression `a % b` on `int`, undefined for a zero divisor. -/
def c_mod (a b : Int) : Option Int :=
  if b = 0 then none else some (Int.tmod a b)

/-- The loop `while (buffer_size % xfer_size) { temp++; xfer_size =
buffer_size / temp; }` of `omap_mcbsp_dai_hw_params`, run for at most
`fuel + 1` evaluations of its condition. The result is `none` when a divisor
is zero or the fuel runs out, and the final `xfer_size` otherwise. The C
variables are `int`; on the path that reaches the loop `temp` and `xfer_size`
stay between 1 and `buffer_size`, so `Int` arithmetic is exact. -/
def xfer_size_loop (buffer_size : Int) : Nat → Int → Int → Option Int
  | 0, _, xfer_size =>
      match c_mod buffer_size xfer_size with
      | none => none
      | some m => if m ≠ 0 then none else some xfer_size
  | fuel + 1, temp, xfer_size =>
      match c_mod buffer_size xfer_size with
      | none => none
      | some m =>
          if m ≠ 0 then
            match c_div buffer_size (temp + 1) with
            | none => none
            | some q => xfer_size_loop buffer_size fuel (temp + 1) q
          else some xfer_size

/-- The transfer-size adjustment of `omap_mcbsp_dai_hw_params` on OMAP34xx:
`xfer_size` is the threshold taken from `omap34xx_mcbsp_thresholds` (a table
that is not part of the sources) and `buffer_size` is
`params_buffer_size (params)`. -/
def adjust_xfer_size (fuel : Nat) (xfer_size buffer_size : Int) : Option Int :=
  if xfer_size ≠ 0 then
    if xfer_size > buffer_size then some 0
    else
      match c_div buffer_size xfer_size with
      | none => none
      | some temp => xfer_size_loop buffer_size fuel temp xfer_size
  else some xfer_size

end OmapMcbsp

/-! # Board revision tests

Source: `arch/arm/plat-omap/include/mach/board-boxer.h`. The kernel global
`system_rev` (an `unsigned int`) is a parameter; the tests return the C
truth values 1 and 0. -/

namespace BoardBoxer

def PRODUCT_AVOCET : Nat := 0x7
def BOARD_AVOCET_REV_EVT0 : Nat := 0x0
def BOARD_AVOCET_REV_EVT1A : Nat := 0x1
def BOARD_AVOCET_REV_EVT1B : Nat := 0x2

/-- Source `is_avocet`. -/
def is_avocet (system_rev : Nat) : Int :=
  if (system_rev >>> 4) &&& 0x0F = PRODUCT_AVOCET then 1 else 0

/-- Source `is_avocet_board_evt0`. -/
def is_avocet_board_evt0 (system_rev : Nat) : Int :=
  if is_avocet system_rev ≠ 0 ∧ system_rev &&& 0x0F = BOARD_AVOCET_REV_EVT0 then 1 else 0

/-- Source `is_avocet_board_evt1a`. -/
def is_avocet_board_evt1a (system_rev : Nat) : Int :=
  if is_avocet system_rev ≠ 0 ∧ system_rev &&& 0x0F = BOARD_AVOCET_REV_EVT1A then 1 else 0

/-- Source `is_avocet_board_evt1b_later`. -/
def is_avocet_board_evt1b_later (system_rev : Nat) : Int :=
  if is_avocet system_rev ≠ 0 ∧ system_rev &&& 0x0F ≥ BOARD_AVOCET_REV_EVT1B then 1 else 0

end BoardBoxer

namespace Bq27510
open power_supply_property

/-! ## Bit tests -/

theorem nat_and_two_pow_ne_zero_iff (n k : Nat) : n &&& 2 ^ k ≠ 0 ↔ n.testBit k = true := by
  constructor
  · intro hne
    by_contra hb
    apply hne
    apply Nat.eq_of_testBit_eq
    intro i
    by_cases hki : k = i
    · subst hki; simp [Nat.testBit_two_pow_self]; simpa using hb
    · simp [Nat.testBit_two_pow, hki]
  · intro hb hz
    have h2 := congrArg (fun m => m.testBit k) hz
    simp [Nat.testBit_two_pow_self, hb] at h2

theorem land_bit_ne_zero_iff (n k : Nat) :
    Int.land (n : Int) ((1 <<< k : Nat) : Int) ≠ 0 ↔ n.testBit k = true := by
  have h : Int.land (n : Int) ((1 <<< k : Nat) : Int) = ((n &&& 2 ^ k : Nat) : Int) := by
    rw [Nat.one_shiftLeft]; rfl
  rw [h, ← nat_and_two_pow_ne_zero_iff]
  exact Int.natCast_ne_zero

theorem land_two_bits_ne_zero_iff (n a b : Nat) :
    Int.land (n : Int) (((1 <<< a) ||| (1 <<< b) : Nat) : Int) ≠ 0
      ↔ (n.testBit a = true ∨ n.testBit b = true) := by
  have h : Int.land (n : Int) (((1 <<< a) ||| (1 <<< b) : Nat) : Int)
      = ((n &&& (2 ^ a ||| 2 ^ b) : Nat) : Int) := by
    rw [Nat.one_shiftLeft, Nat.one_shiftLeft]; rfl
  rw [h, ← nat_and_two_pow_ne_zero_iff, ← nat_and_two_pow_ne_zero_iff, Int.natCast_ne_zero]
  have hd : n &&& (2 ^ a ||| 2 ^ b) = (n &&& 2 ^ a) ||| (n &&& 2 ^ b) := by
    apply Nat.eq_of_testBit_eq
    intro i
    simp [Bool.and_or_distrib_left]
  rw [hd]
  constructor
  · intro hne
    by_contra hc
    push_neg at hc
    apply hne
    rw [hc.1, hc.2]; rfl
  · intro hor hz
    have hz1 : ∀ i, ((n &&& 2 ^ a) ||| (n &&& 2 ^ b)).testBit i = false := by
      intro i; rw [hz]; simp
    rcases hor with h1 | h1
    · apply h1
      apply Nat.eq_of_testBit_eq
      intro i
      have := hz1 i
      simp only [Nat.testBit_or, Bool.or_eq_false_iff] at this
      simp [this.1]
    · apply h1
      apply Nat.eq_of_testBit_eq
      intro i
      have := hz1 i
      simp only [Nat.testBit_or, Bool.or_eq_false_iff] at this
      simp [this.2]

/-! ## Cached reads -/

theorem raw16_lt (di : bq27510_device_info) (reg : Nat) : raw16 di reg < 65536 := by
  have h0 : regbuf_at di reg < 256 := (di.regbuf.getD reg 0).isLt
  have h1 : regbuf_at di (reg + 1) < 256 := (di.regbuf.getD (reg + 1) 0).isLt
  unfold raw16
  omega

theorem bq27x10_read_word (di : bq27510_device_info) (reg : Nat) (v : Int)
    (h : di.client_adapter = true) :
    bq27x10_read reg v false di = (0, (raw16 di reg : Int)) := by
  simp [bq27x10_read, h, raw16, Nat.shiftLeft_eq, Nat.mul_comm]

theorem bq27x10_read_nodev (di : bq27510_device_info) (reg : Nat) (v : Int) (b : Bool)
    (h : di.client_adapter = false) :
    bq27x10_read reg v b di = (-ENODEV, v) := by
  simp [bq27x10_read, h]

/-! ## Status and health -/

/-- C1: when the cached read succeeds, `bq27510_battery_status` is the
fixed-order decision list over the flags word and the derived signed current:
FULL if bit 9 is set, else DISCHARGING if bit 0 is set and the current is
negative, else CHARGING if bit 8 is set and the current is positive, else
NOT_CHARGING. -/
theorem battery_status_decision_list (di : bq27510_device_info)
    (h : di.client_adapter = true) :
    bq27510_battery_status di
      = status_decision_list (raw16 di 0x0A) (bq27510_battery_current di) := by
  simp only [bq27510_battery_status, BQ27510_REG_FLAGS, bq27x10_read_word di _ _ h,
    status_decision_list, land_bit_ne_zero_iff, FLAG_BIT_FC, FLAG_BIT_DSG, FLAG_BIT_CHG]
  simp

/-- Witness for C1: a cache with FC, DSG and CHG all set and raw current
65435 (derived current -100) reports FULL. -/
theorem battery_status_decision_list_witness :
    (sessionWith [(0x0A, 0x0301), (0x14, 65435)]).client_adapter = true
      ∧ bq27510_battery_status (sessionWith [(0x0A, 0x0301), (0x14, 65435)])
          = status_decision_list (raw16 (sessionWith [(0x0A, 0x0301), (0x14, 65435)]) 0x0A)
              (bq27510_battery_current (sessionWith [(0x0A, 0x0301), (0x14, 65435)])) :=
  ⟨rfl, battery_status_decision_list (sessionWith [(0x0A, 0x0301), (0x14, 65435)]) rfl⟩

/-- C2: when the cached read succeeds, `bq27510_battery_health` is OVERHEAT
if flags bit 15 or bit 14 is set, whatever the temperature; otherwise, with
bit 10 or bit 11 set, COLD for a raw temperature below 2731 and OVERHEAT for
one that is not; otherwise GOOD. -/
theorem battery_health_decision_list (di : bq27510_device_info)
    (h : di.client_adapter = true) :
    bq27510_battery_health di
      = health_decision_list (raw16 di 0x0A) (raw16 di 0x06) := by
  simp only [bq27510_battery_health, bq27510_battery_temperature, BQ27510_REG_FLAGS,
    BQ27510_REG_TEMP, bq27x10_read_word di _ _ h,
    health_decision_list, land_bit_ne_zero_iff, land_two_bits_ne_zero_iff,
    FLAG_BIT_OTC, FLAG_BIT_OTD, FLAG_BIT_XCHG, FLAG_BIT_CHG_INH, OFFSET_KELVIN_CELSIUS_DECI]
  by_cases h15 : (raw16 di 10).testBit 15 = true <;>
  by_cases h14 : (raw16 di 10).testBit 14 = true <;>
  simp [h15, h14]

/-- Witness for C2: a cache with only the charge-inhibit flag set and raw
temperature 2700. -/
theorem battery_health_decision_list_witness :
    (sessionWith [(0x0A, 0x0800), (0x06, 2700)]).client_adapter = true
      ∧ bq27510_battery_health (sessionWith [(0x0A, 0x0800), (0x06, 2700)])
          = health_decision_list (raw16 (sessionWith [(0x0A, 0x0800), (0x06, 2700)]) 0x0A)
              (raw16 (sessionWith [(0x0A, 0x0800), (0x06, 2700)]) 0x06) :=
  ⟨rfl, battery_health_decision_list (sessionWith [(0x0A, 0x0800), (0x06, 2700)]) rfl⟩

/-! ## Charge percentage and current -/

theorem battery_present_eq (di : bq27510_device_info) (h : di.client_adapter = true) :
    bq27510_battery_supply_prop_present di
      = if (raw16 di 0x0A).testBit 3 = true then 1 else 0 := by
  simp only [bq27510_battery_supply_prop_present, BQ27510_REG_FLAGS,
    bq27x10_read_word di _ _ h, land_bit_ne_zero_iff, FLAG_BIT_BAT_DET]
  simp

theorem battery_rsoc_eq (di : bq27510_device_info) (h : di.client_adapter = true) :
    bq27510_battery_rsoc di
      = if (raw16 di 0x2C = 0 ∨ raw16 di 0x2C = 65535) ∧ (raw16 di 0x0A).testBit 3 = false
        then 100 else min (raw16 di 0x2C : Int) 100 := by
  have hlt := raw16_lt di 0x2C
  simp only [bq27510_battery_rsoc, BQ27510_REG_RSOC, bq27x10_read_word di _ _ h,
    battery_present_eq di h]
  by_cases hb : (raw16 di 0x0A).testBit 3 = true
  · simp only [hb]
    split_ifs <;> simp_all <;> omega
  · simp only [hb]
    split_ifs <;> simp_all <;> omega

/-- C3 fails as stated: with the battery-present flag set and raw RSOC 0 the
derived capacity is 0, not 100. -/
theorem battery_rsoc_present_zero_counterexample :
    (sessionWith [(0x0A, 8), (0x2C, 0)]).client_adapter = true
      ∧ (raw16 (sessionWith [(0x0A, 8), (0x2C, 0)]) 0x0A).testBit 3 = true
      ∧ raw16 (sessionWith [(0x0A, 8), (0x2C, 0)]) 0x2C = 0
      ∧ bq27510_battery_rsoc (sessionWith [(0x0A, 8), (0x2C, 0)]) = 0
      ∧ bq27510_battery_rsoc (sessionWith [(0x0A, 8), (0x2C, 0)]) ≠ 100 := by
  decide

/-- C3 (amended): when the cached read succeeds and the raw RSOC register is
0 or 0xFFFF, `bq27510_battery_rsoc` returns 100 if the battery-present flag
(flags bit 3) is 0; if the flag is 1 it returns 100 for raw 0xFFFF (by the
upper clamp) and 0 for raw 0. -/
theorem battery_rsoc_sentinel (di : bq27510_device_info)
    (h : di.client_adapter = true)
    (hraw : raw16 di 0x2C = 0 ∨ raw16 di 0x2C = 0xFFFF) :
    bq27510_battery_rsoc di
      = if (raw16 di 0x0A).testBit 3 = false ∨ raw16 di 0x2C = 0xFFFF then 100 else 0 := by
  rw [battery_rsoc_eq di h]
  rcases hraw with h0 | h1
  · by_cases hb : (raw16 di 0x0A).testBit 3 = true <;> simp [h0, hb]
  · by_cases hb : (raw16 di 0x0A).testBit 3 = true <;> simp [h1, hb]

/-- Witness for C3 (amended): battery absent, raw RSOC 0. -/
theorem battery_rsoc_sentinel_witness :
    bq27510_battery_rsoc (sessionWith [(0x0A, 0), (0x2C, 0)])
      = if (raw16 (sessionWith [(0x0A, 0), (0x2C, 0)]) 0x0A).testBit 3 = false
          ∨ raw16 (sessionWith [(0x0A, 0), (0x2C, 0)]) 0x2C = 0xFFFF then 100 else 0 :=
  battery_rsoc_sentinel (sessionWith [(0x0A, 0), (0x2C, 0)]) rfl (Or.inl (by decide))

/-- C4: when the cached read succeeds and the raw RSOC register is r with
1 <= r, `bq27510_battery_rsoc` returns min (r, 100), whatever the flags
register holds: exactly r for 1 <= r <= 100 and 100 above. -/
theorem battery_rsoc_clamp (di : bq27510_device_info)
    (h : di.client_adapter = true) (hr : 1 ≤ raw16 di 0x2C) :
    bq27510_battery_rsoc di = min (raw16 di 0x2C : Int) 100
      ∧ (raw16 di 0x2C ≤ 100 → bq27510_battery_rsoc di = raw16 di 0x2C)
      ∧ (100 < raw16 di 0x2C → bq27510_battery_rsoc di = 100) := by
  have hlt := raw16_lt di 0x2C
  have hmin : bq27510_battery_rsoc di = min (raw16 di 0x2C : Int) 100 := by
    rw [battery_rsoc_eq di h]
    split_ifs with hc
    · rcases hc.1 with h0 | h1
      · omega
      · rw [h1]; rfl
    · rfl
  refine ⟨hmin, ?_, ?_⟩
  · intro hle; rw [hmin]; omega
  · intro hgt; rw [hmin]; omega

/-- Witness for C4: raw RSOC 57 with the battery-present flag set. -/
theorem battery_rsoc_clamp_witness :
    bq27510_battery_rsoc (sessionWith [(0x0A, 8), (0x2C, 57)]) = 57 :=
  (battery_rsoc_clamp (sessionWith [(0x0A, 8), (0x2C, 57)]) rfl (by decide)).2.1 (by decide)

/-- C5: with r the cached 16-bit raw value of the average-current register,
`bq27510_battery_current` returns r - 65535 when r > 32767 and r otherwise;
when the cached read fails it returns 0. -/
theorem battery_current_signed (di : bq27510_device_info) :
    (di.client_adapter = true →
      bq27510_battery_current di
        = if raw16 di BQ27510_REG_AI > 32767 then (raw16 di BQ27510_REG_AI : Int) - 65535
          else (raw16 di BQ27510_REG_AI : Int))
    ∧ (di.client_adapter = false → bq27510_battery_current di = 0) := by
  constructor
  · intro h
    simp only [bq27510_battery_current, bq27x10_read_word di _ _ h, CURRENT_OVF_THRESHOLD]
    by_cases hc : raw16 di BQ27510_REG_AI > 32767 <;> simp [hc]
  · intro h
    simp [bq27510_battery_current, bq27x10_read_nodev di _ _ _ h, ENODEV]

/-- Witness for C5: raw 40000 gives -25535, raw 500 gives 500, and a session
without a bus adapter gives 0. -/
theorem battery_current_signed_witness :
    bq27510_battery_current (sessionWith [(0x14, 40000)]) = -25535
      ∧ bq27510_battery_current (sessionWith [(0x14, 500)]) = 500
      ∧ bq27510_battery_current { sessionWith [(0x14, 500)] with client_adapter := false } = 0 :=
  ⟨((battery_current_signed (sessionWith [(0x14, 40000)])).1 rfl).trans (by decide),
   ((battery_current_signed (sessionWith [(0x14, 500)])).1 rfl).trans (by decide),
   (battery_current_signed { sessionWith [(0x14, 500)] with client_adapter := false }).2 rfl⟩

/-! ## Charger-type signal -/

theorem charger_type_classification (limit : Int) (s : driver_state) :
    (bq27x10_charger_type limit s).bq27x10_type = classify_limit limit := by
  unfold bq27x10_charger_type classify_limit USB_CURRENT_LIMIT_HIGH AC_CURRENT_LIMIT
  by_cases hl : s.local_di = true <;> by_cases h1 : limit = 500000 <;>
    by_cases h2 : limit = 1500000 <;> simp [hl, h1, h2]

/-- C6: `bq27x10_charger_type` classifies by exact equality only: the
classification is USB iff the limit is 500000, MAINS iff it is 1500000 and
BATTERY for every other value (100000 and the neighbours of the two constants
included), whatever the state, and so whatever the previous classification. -/
theorem charger_type_exact_match (limit : Int) (s s1 : driver_state) :
    ((bq27x10_charger_type limit s).bq27x10_type = POWER_SUPPLY_TYPE_USB
        ↔ limit = USB_CURRENT_LIMIT_HIGH)
      ∧ ((bq27x10_charger_type limit s).bq27x10_type = POWER_SUPPLY_TYPE_MAINS
          ↔ limit = AC_CURRENT_LIMIT)
      ∧ ((bq27x10_charger_type limit s).bq27x10_type = POWER_SUPPLY_TYPE_BATTERY
          ↔ (limit ≠ USB_CURRENT_LIMIT_HIGH ∧ limit ≠ AC_CURRENT_LIMIT))
      ∧ (bq27x10_charger_type limit s1).bq27x10_type
          = (bq27x10_charger_type limit s).bq27x10_type
      ∧ (bq27x10_charger_type USB_CURRENT_LIMIT_LOW s).bq27x10_type = POWER_SUPPLY_TYPE_BATTERY
      ∧ (bq27x10_charger_type 499999 s).bq27x10_type = POWER_SUPPLY_TYPE_BATTERY
      ∧ (bq27x10_charger_type 500001 s).bq27x10_type = POWER_SUPPLY_TYPE_BATTERY
      ∧ (bq27x10_charger_type 1499999 s).bq27x10_type = POWER_SUPPLY_TYPE_BATTERY
      ∧ (bq27x10_charger_type 1500001 s).bq27x10_type = POWER_SUPPLY_TYPE_BATTERY := by
  refine ⟨?_, ?_, ?_, ?_, ?_, ?_, ?_, ?_, ?_⟩
  · rw [charger_type_classification]
    unfold classify_limit USB_CURRENT_LIMIT_HIGH POWER_SUPPLY_TYPE_USB
      POWER_SUPPLY_TYPE_MAINS POWER_SUPPLY_TYPE_BATTERY
    split_ifs <;> simp_all
  · rw [charger_type_classification]
    unfold classify_limit AC_CURRENT_LIMIT POWER_SUPPLY_TYPE_USB
      POWER_SUPPLY_TYPE_MAINS POWER_SUPPLY_TYPE_BATTERY
    split_ifs <;> simp_all
  · rw [charger_type_classification]
    unfold classify_limit USB_CURRENT_LIMIT_HIGH AC_CURRENT_LIMIT POWER_SUPPLY_TYPE_USB
      POWER_SUPPLY_TYPE_MAINS POWER_SUPPLY_TYPE_BATTERY
    split_ifs <;> simp_all
  · rw [charger_type_classification, charger_type_classification]
  · rw [charger_type_classification]; rfl
  · rw [charger_type_classification]; rfl
  · rw [charger_type_classification]; rfl
  · rw [charger_type_classification]; rfl
  · rw [charger_type_classification]; rfl

/-- C7: after `bq27x10_charger_type (500000)` with an active session the USB
source reports ONLINE 1, the wall source reports ONLINE 0, the rapid-poll
counter is 0 and the next poll is scheduled after 500 ms; after any
`bq27x10_charger_type (limit)` USB ONLINE is (classification == USB) and wall
ONLINE is (classification == MAINS). -/
theorem charger_type_online (s : driver_state) (limit v : Int) :
    (s.local_di = true →
      bq27510_usb_get_property POWER_SUPPLY_PROP_ONLINE v (bq27x10_charger_type 500000 s) = (0, 1)
      ∧ bq27510_wall_get_property POWER_SUPPLY_PROP_ONLINE v (bq27x10_charger_type 500000 s)
          = (0, 0)
      ∧ (bq27x10_charger_type 500000 s).di.rapid_poll_cycle = 0
      ∧ (bq27x10_charger_type 500000 s).bat_work = some 500)
    ∧ bq27510_usb_get_property POWER_SUPPLY_PROP_ONLINE v (bq27x10_charger_type limit s)
        = (0, if (bq27x10_charger_type limit s).bq27x10_type = POWER_SUPPLY_TYPE_USB
              then 1 else 0)
    ∧ bq27510_wall_get_property POWER_SUPPLY_PROP_ONLINE v (bq27x10_charger_type limit s)
        = (0, if (bq27x10_charger_type limit s).bq27x10_type = POWER_SUPPLY_TYPE_MAINS
              then 1 else 0)
    ∧ (bq27x10_charger_type limit s).bq27x10_type = classify_limit limit := by
  refine ⟨?_, rfl, rfl, charger_type_classification limit s⟩
  intro h
  simp [bq27510_usb_get_property, bq27510_wall_get_property, bq27x10_charger_type, h,
    USB_CURRENT_LIMIT_HIGH, AC_CURRENT_LIMIT, POWER_SUPPLY_TYPE_USB, POWER_SUPPLY_TYPE_MAINS,
    T_POLL_PLUG_MS]

/-- Witness for C7: a freshly attached session that was classified MAINS. -/
theorem charger_type_online_witness :
    bq27510_usb_get_property POWER_SUPPLY_PROP_ONLINE 7
        (bq27x10_charger_type 500000
          { attached (cacheOf []) with bq27x10_type := POWER_SUPPLY_TYPE_MAINS }) = (0, 1)
      ∧ bq27510_wall_get_property POWER_SUPPLY_PROP_ONLINE 7
        (bq27x10_charger_type 500000
          { attached (cacheOf []) with bq27x10_type := POWER_SUPPLY_TYPE_MAINS }) = (0, 0)
      ∧ (bq27x10_charger_type 500000
          { attached (cacheOf []) with bq27x10_type := POWER_SUPPLY_TYPE_MAINS }).di.rapid_poll_cycle
          = 0
      ∧ (bq27x10_charger_type 500000
          { attached (cacheOf []) with bq27x10_type := POWER_SUPPLY_TYPE_MAINS }).bat_work
          = some 500 :=
  (charger_type_online
    { attached (cacheOf []) with bq27x10_type := POWER_SUPPLY_TYPE_MAINS } 0 7).1 rfl

/-! ## Bulk refresh -/

theorem i2c_store_length (data : List (Fin 256)) :
    ∀ (buf : List (Fin 256)) (off : Nat), (i2c_store buf off data).length = buf.length := by
  induction data with
  | nil => intro buf off; rfl
  | cons x xs ih => intro buf off; simp [i2c_store, ih]

theorem i2c_store_getD_outside (data : List (Fin 256)) :
    ∀ (buf : List (Fin 256)) (off i : Nat), (i < off ∨ off + data.length ≤ i) →
      (i2c_store buf off data).getD i 0 = buf.getD i 0 := by
  induction data with
  | nil => intro buf off i _; rfl
  | cons x xs ih =>
    intro buf off i h
    have hne : off ≠ i := by
      rcases h with h | h
      · omega
      · simp at h; omega
    have h2 : i < off + 1 ∨ off + 1 + xs.length ≤ i := by
      rcases h with h | h
      · left; omega
      · right; simp at h; omega
    simp only [i2c_store]
    rw [ih (buf.set off x) (off + 1) i h2]
    simp [List.getD_eq_getElem?_getD, List.getElem?_set_ne hne]

theorem read_registers_snd (bus : i2c_result) (pause : Nat) (di : bq27510_device_info) :
    (bq27x10_read_registers bus pause di).2
      = if pause = 1 then di
        else { di with
          regbuf := i2c_store di.regbuf BQ27510_REG_BUFFER_START
            (bus.rx.take (BQ27510_REG_BUFFER_SIZE - BQ27510_REG_BUFFER_START)) } := by
  simp only [bq27x10_read_registers]
  split_ifs <;> rfl

theorem read_registers_counter (bus : i2c_result) (pause : Nat) (di : bq27510_device_info) :
    (bq27x10_read_registers bus pause di).2.rapid_poll_cycle = di.rapid_poll_cycle := by
  rw [read_registers_snd]
  split_ifs <;> rfl

/-! ## Poller -/

theorem bat_work_counter (bus : i2c_result) (s : driver_state)
    (h : 0 ≤ s.di.rapid_poll_cycle ∧ s.di.rapid_poll_cycle ≤ T_POLL_PLUG_MAX) :
    0 ≤ (bq27x10_bat_work bus s).di.rapid_poll_cycle
      ∧ (bq27x10_bat_work bus s).di.rapid_poll_cycle ≤ T_POLL_PLUG_MAX := by
  unfold bq27x10_bat_work
  by_cases hl : s.local_di = true
  · simp only [hl, if_true, read_registers_counter]
    by_cases hc : s.di.rapid_poll_cycle < T_POLL_PLUG_MAX
    · simp only [hc, if_true]
      constructor <;> omega
    · simp only [hc, if_false, read_registers_counter]
      exact h
  · simp only [hl]
    exact h

theorem driver_step_counter (s : driver_state) (ev : driver_event)
    (h : 0 ≤ s.di.rapid_poll_cycle ∧ s.di.rapid_poll_cycle ≤ T_POLL_PLUG_MAX) :
    0 ≤ (driver_step s ev).di.rapid_poll_cycle
      ∧ (driver_step s ev).di.rapid_poll_cycle ≤ T_POLL_PLUG_MAX := by
  cases ev with
  | poll bus => exact bat_work_counter bus s h
  | charger limit =>
    simp only [driver_step, bq27x10_charger_type]
    by_cases hl : s.local_di = true
    · simp [hl, T_POLL_PLUG_MAX]
    · simp only [hl]; exact h
  | resume => simp [driver_step, bq27510_battery_resume, T_POLL_PLUG_MAX]

theorem driver_run_counter (evs : List driver_event) :
    ∀ s : driver_state,
      (0 ≤ s.di.rapid_poll_cycle ∧ s.di.rapid_poll_cycle ≤ T_POLL_PLUG_MAX) →
      0 ≤ (driver_run s evs).di.rapid_poll_cycle
        ∧ (driver_run s evs).di.rapid_poll_cycle ≤ T_POLL_PLUG_MAX := by
  induction evs with
  | nil => intro s h; exact h
  | cons ev rest ih =>
    intro s h
    exact ih (driver_step s ev) (driver_step_counter s ev h)

/-- C8: in every state reached from a session with `rapid_poll_cycle == 0`
by any sequence of poll runs, charger-type signals and resumes, the
rapid-poll counter is between 0 and `T_POLL_PLUG_MAX` (10). -/
theorem rapid_poll_cycle_bounded (s : driver_state) (evs : List driver_event)
    (h0 : s.di.rapid_poll_cycle = 0) :
    0 ≤ (driver_run s evs).di.rapid_poll_cycle
      ∧ (driver_run s evs).di.rapid_poll_cycle ≤ 10 := by
  have h := driver_run_counter evs s (by rw [h0]; decide)
  exact h

/-- Witness for C8: twelve poll runs, a charger-type signal, a resume and a
failed poll run after a fresh attach. -/
theorem rapid_poll_cycle_bounded_witness :
    0 ≤ (driver_run (attached (cacheOf []))
          (List.replicate 12 (driver_event.poll ⟨2, []⟩)
            ++ [driver_event.charger 500000, driver_event.resume,
                driver_event.poll ⟨-5, [1]⟩])).di.rapid_poll_cycle
      ∧ (driver_run (attached (cacheOf []))
          (List.replicate 12 (driver_event.poll ⟨2, []⟩)
            ++ [driver_event.charger 500000, driver_event.resume,
                driver_event.poll ⟨-5, [1]⟩])).di.rapid_poll_cycle ≤ 10 :=
  rapid_poll_cycle_bounded (attached (cacheOf [])) _ rfl

theorem bat_work_active (bus : i2c_result) (s : driver_state) (h : s.local_di = true) :
    (bq27x10_bat_work bus s).local_di = true
      ∧ (s.di.rapid_poll_cycle < T_POLL_PLUG_MAX →
          (bq27x10_bat_work bus s).di.rapid_poll_cycle = s.di.rapid_poll_cycle + 1
            ∧ (bq27x10_bat_work bus s).bat_work = some T_POLL_PLUG_MS)
      ∧ (¬ s.di.rapid_poll_cycle < T_POLL_PLUG_MAX →
          (bq27x10_bat_work bus s).di.rapid_poll_cycle = s.di.rapid_poll_cycle
            ∧ (bq27x10_bat_work bus s).bat_work = some T_POLL_MS) := by
  unfold bq27x10_bat_work
  simp only [h, if_true, read_registers_counter]
  refine ⟨?_, ?_, ?_⟩
  · split_ifs <;> rfl
  · intro hc
    simp only [hc, if_true]
    exact ⟨trivial, trivial⟩
  · intro hc
    simp only [hc, if_false, read_registers_counter]
    exact ⟨trivial, trivial⟩

theorem poll_runs_counter (buses : List i2c_result) :
    ∀ s : driver_state, s.local_di = true → 0 ≤ s.di.rapid_poll_cycle →
      s.di.rapid_poll_cycle ≤ 10 →
      (poll_runs s buses).local_di = true
        ∧ (poll_runs s buses).di.rapid_poll_cycle
            = min (s.di.rapid_poll_cycle + buses.length) 10 := by
  induction buses with
  | nil =>
    intro s h h0 h1
    refine ⟨h, ?_⟩
    simp only [poll_runs, List.foldl_nil, List.length_nil]
    omega
  | cons bus rest ih =>
    intro s h h0 h1
    have hw := bat_work_active bus s h
    have hstep : poll_runs s (bus :: rest) = poll_runs (bq27x10_bat_work bus s) rest := rfl
    rw [hstep]
    by_cases hc : s.di.rapid_poll_cycle < T_POLL_PLUG_MAX
    · have h2 := (hw.2.1 hc).1
      have hc1 : s.di.rapid_poll_cycle < 10 := hc
      have := ih (bq27x10_bat_work bus s) hw.1 (by omega) (by omega)
      refine ⟨this.1, ?_⟩
      rw [this.2, h2]
      simp only [List.length_cons]
      push_cast
      omega
    · have h2 := (hw.2.2 hc).1
      have hc1 : ¬ s.di.rapid_poll_cycle < 10 := hc
      have := ih (bq27x10_bat_work bus s) hw.1 (by omega) (by omega)
      refine ⟨this.1, ?_⟩
      rw [this.2, h2]
      simp only [List.length_cons]
      push_cast
      omega

/-- C9: from `rapid_poll_cycle == 0` with an active session and nothing but
poll runs, the poll run that follows n earlier ones re-arms itself after
500 ms and takes the counter from n to n + 1 when n < 10, and re-arms itself
after 30000 ms and leaves the counter at 10 when n >= 10. -/
theorem rapid_then_slow (s : driver_state) (buses : List i2c_result) (bus : i2c_result)
    (h : s.local_di = true) (h0 : s.di.rapid_poll_cycle = 0) :
    (buses.length < 10 →
      (poll_runs s buses).di.rapid_poll_cycle = buses.length
        ∧ (bq27x10_bat_work bus (poll_runs s buses)).di.rapid_poll_cycle = buses.length + 1
        ∧ (bq27x10_bat_work bus (poll_runs s buses)).bat_work = some 500)
    ∧ (10 ≤ buses.length →
      (poll_runs s buses).di.rapid_poll_cycle = 10
        ∧ (bq27x10_bat_work bus (poll_runs s buses)).di.rapid_poll_cycle = 10
        ∧ (bq27x10_bat_work bus (poll_runs s buses)).bat_work = some 30000) := by
  have hp := poll_runs_counter buses s h (by omega) (by omega)
  have hw := bat_work_active bus (poll_runs s buses) hp.1
  rw [h0] at hp
  constructor
  · intro hn
    have hc : (poll_runs s buses).di.rapid_poll_cycle = buses.length := by
      rw [hp.2]; omega
    have hlt : (poll_runs s buses).di.rapid_poll_cycle < T_POLL_PLUG_MAX := by
      rw [hc]; unfold T_POLL_PLUG_MAX; omega
    refine ⟨hc, ?_, (hw.2.1 hlt).2⟩
    rw [(hw.2.1 hlt).1, hc]
  · intro hn
    have hc : (poll_runs s buses).di.rapid_poll_cycle = 10 := by
      rw [hp.2]; omega
    have hge : ¬ (poll_runs s buses).di.rapid_poll_cycle < T_POLL_PLUG_MAX := by
      rw [hc]; unfold T_POLL_PLUG_MAX; omega
    refine ⟨hc, ?_, (hw.2.2 hge).2⟩
    rw [(hw.2.2 hge).1, hc]

/-- Witness for C9: the tenth poll run after attach is rapid and the twelfth
is slow. -/
theorem rapid_then_slow_witness :
    ((bq27x10_bat_work ⟨2, []⟩
        (poll_runs (attached (cacheOf [])) (List.replicate 9 ⟨2, []⟩))).di.rapid_poll_cycle = 10
      ∧ (bq27x10_bat_work ⟨2, []⟩
        (poll_runs (attached (cacheOf [])) (List.replicate 9 ⟨2, []⟩))).bat_work = some 500)
    ∧ ((bq27x10_bat_work ⟨2, []⟩
        (poll_runs (attached (cacheOf [])) (List.replicate 11 ⟨2, []⟩))).di.rapid_poll_cycle = 10
      ∧ (bq27x10_bat_work ⟨2, []⟩
        (poll_runs (attached (cacheOf [])) (List.replicate 11 ⟨2, []⟩))).bat_work = some 30000) :=
  ⟨((rapid_then_slow (attached (cacheOf [])) (List.replicate 9 ⟨2, []⟩) ⟨2, []⟩ rfl rfl).1
      (by decide)).2,
   ((rapid_then_slow (attached (cacheOf [])) (List.replicate 11 ⟨2, []⟩) ⟨2, []⟩ rfl rfl).2
      (by decide)).2⟩

/-- C10 fails as stated: a transfer that stores three bytes and then times
out (-110) makes `bq27x10_read_registers` report that error with those bytes
already in the cache, and a transfer that executes one message of two becomes
-EIO with the cache changed as well. -/
theorem read_registers_failure_counterexample :
    (bq27x10_read_registers ⟨-110, [1, 2, 3]⟩ 0 (sessionWith [])).1 = -110
      ∧ (bq27x10_read_registers ⟨-110, [1, 2, 3]⟩ 0 (sessionWith [])).2.regbuf
          ≠ (sessionWith []).regbuf
      ∧ (bq27x10_read_registers ⟨1, [1, 2, 3]⟩ 0 (sessionWith [])).1 = - EIO
      ∧ (bq27x10_read_registers ⟨1, [1, 2, 3]⟩ 0 (sessionWith [])).2.regbuf
          ≠ (sessionWith []).regbuf := by
  decide

/-- C10 (amended): `bq27x10_read_registers` returns 0 exactly when the
transfer ran and executed 2 messages; otherwise it returns a negative code:
-EBUSY without a transfer while i2c is paused, the negative bus error passed
through, or -EIO for another message count. The read buffer of the transfer
is the cache itself: whatever the return code, the cache keeps its length and
its bytes outside the part of the window that the adapter stored into, and
no other field of the session changes; so a failed call leaves the cache as
it was when the transfer was skipped or the adapter stored nothing. -/
theorem read_registers_failure (bus : i2c_result) (pause : Nat)
    (di : bq27510_device_info) :
    ((bq27x10_read_registers bus pause di).1 = 0 ↔ (pause ≠ 1 ∧ bus.stat = 2))
      ∧ ((bq27x10_read_registers bus pause di).1 ≠ 0 →
          (bq27x10_read_registers bus pause di).1 < 0
            ∧ (pause = 1 → (bq27x10_read_registers bus pause di).1 = -EBUSY)
            ∧ (pause ≠ 1 → bus.stat < 0 →
                (bq27x10_read_registers bus pause di).1 = bus.stat)
            ∧ (pause ≠ 1 → 0 ≤ bus.stat →
                (bq27x10_read_registers bus pause di).1 = - EIO))
      ∧ (bq27x10_read_registers bus pause di).2.regbuf.length = di.regbuf.length
      ∧ (∀ i, (i < BQ27510_REG_BUFFER_START
              ∨ BQ27510_REG_BUFFER_START + bus.rx.length ≤ i) →
            regbuf_at (bq27x10_read_registers bus pause di).2 i = regbuf_at di i)
      ∧ (bq27x10_read_registers bus pause di).2
          = { di with regbuf := (bq27x10_read_registers bus pause di).2.regbuf }
      ∧ ((pause = 1 ∨ bus.rx = []) → (bq27x10_read_registers bus pause di).2 = di) := by
  refine ⟨?_, ?_, ?_, ?_, ?_, ?_⟩
  · simp only [bq27x10_read_registers, EBUSY, EIO]
    split_ifs <;> simp_all
    omega
  · intro hne
    simp only [bq27x10_read_registers, EBUSY, EIO] at hne ⊢
    split_ifs at hne ⊢ <;> simp_all
  · rw [read_registers_snd]
    split_ifs
    · rfl
    · exact i2c_store_length _ _ _
  · intro i hi
    rw [read_registers_snd]
    split_ifs
    · rfl
    · apply congrArg Fin.val
      apply i2c_store_getD_outside
      rcases hi with hi | hi
      · exact Or.inl hi
      · right
        have hlen : (List.take (BQ27510_REG_BUFFER_SIZE - BQ27510_REG_BUFFER_START)
            bus.rx).length ≤ bus.rx.length := by
          rw [List.length_take]; omega
        omega
  · rw [read_registers_snd]
    split_ifs <;> rfl
  · intro h
    rw [read_registers_snd]
    rcases h with h | h
    · simp [h]
    · simp [h, i2c_store]

/-- Witness for C10 (amended): a transfer that fails with -110 before the
adapter stored anything leaves the session as it was. -/
theorem read_registers_failure_witness :
    (bq27x10_read_registers ⟨-110, []⟩ 0 (sessionWith [(0x2C, 57)])).1 = -110
      ∧ (bq27x10_read_registers ⟨-110, []⟩ 0 (sessionWith [(0x2C, 57)])).2
          = sessionWith [(0x2C, 57)] :=
  ⟨((read_registers_failure ⟨-110, []⟩ 0 (sessionWith [(0x2C, 57)])).2.1 (by decide)).2.2.1
      (by decide) (by decide),
   (read_registers_failure ⟨-110, []⟩ 0 (sessionWith [(0x2C, 57)])).2.2.2.2.2 (Or.inr rfl)⟩

/-! ## Poll run: refresh and notifications -/

/-- C11 fails as stated: a poll run whose refresh fails (the transfer
returns -110) still issues the three change notifications. -/
theorem bat_work_failed_refresh_counterexample :
    (attached (cacheOf [])).local_di = true
      ∧ (bq27x10_read_registers ⟨-110, []⟩ (attached (cacheOf [])).g_pause_i2c
          (attached (cacheOf [])).di).1 = -110
      ∧ (attached (cacheOf [])).changed = []
      ∧ (bq27x10_bat_work ⟨-110, []⟩ (attached (cacheOf []))).changed
          = [power_supply.bat, power_supply.usb, power_supply.wall] := by
  decide

/-- C11 (amended): on each run of the poll task with an active session the
register cache is refreshed by `bq27x10_read_registers` and the three
consumers (battery, USB, wall) are each notified once, in that order, whether
the refresh succeeded or failed; nothing else of the session but the
rapid-poll counter changes. -/
theorem bat_work_refresh_and_notify (bus : i2c_result) (s : driver_state)
    (h : s.local_di = true) :
    (bq27x10_bat_work bus s).changed
        = s.changed ++ [power_supply.bat, power_supply.usb, power_supply.wall]
      ∧ { (bq27x10_bat_work bus s).di with rapid_poll_cycle := s.di.rapid_poll_cycle }
          = (bq27x10_read_registers bus s.g_pause_i2c s.di).2 := by
  have hc := read_registers_counter bus s.g_pause_i2c s.di
  unfold bq27x10_bat_work
  simp only [h, if_true]
  split_ifs
  · refine ⟨rfl, ?_⟩
    simp only []
    rw [← hc]
  · refine ⟨rfl, ?_⟩
    simp only []
    rw [← hc]

/-- Witness for C11 (amended): one run with a successful refresh and one with
a failed refresh, each on an active session. -/
theorem bat_work_refresh_and_notify_witness :
    (bq27x10_bat_work ⟨2, [5]⟩ (attached (cacheOf []))).changed
        = [power_supply.bat, power_supply.usb, power_supply.wall]
      ∧ (bq27x10_bat_work ⟨-5, []⟩ (attached (cacheOf []))).changed
        = [power_supply.bat, power_supply.usb, power_supply.wall] :=
  ⟨(bat_work_refresh_and_notify ⟨2, [5]⟩ (attached (cacheOf [])) rfl).1,
   (bat_work_refresh_and_notify ⟨-5, []⟩ (attached (cacheOf [])) rfl).1⟩

/-! ## Battery property query -/

theorem battery_temperature_eq (di : bq27510_device_info) (h : di.client_adapter = true) :
    bq27510_battery_temperature di = (raw16 di 0x06 : Int) := by
  simp [bq27510_battery_temperature, BQ27510_REG_TEMP, bq27x10_read_word di _ _ h]

theorem battery_voltage_eq (di : bq27510_device_info) (h : di.client_adapter = true) :
    bq27510_battery_voltage di = (raw16 di 0x08 : Int) := by
  simp [bq27510_battery_voltage, BQ27510_REG_VOLT, bq27x10_read_word di _ _ h]

theorem battery_max_level_eq (di : bq27510_device_info) (h : di.client_adapter = true) :
    bq27510_battery_max_level di = (raw16 di 0x12 : Int) := by
  simp [bq27510_battery_max_level, BQ27510_REG_FCC, bq27x10_read_word di _ _ h]

theorem battery_time_to_empty_eq (di : bq27510_device_info) (h : di.client_adapter = true) :
    bq27510_battery_time_to_empty_now di = (raw16 di 0x16 : Int) := by
  simp [bq27510_battery_time_to_empty_now, BQ27510_REG_TTE, bq27x10_read_word di _ _ h]

theorem battery_time_to_full_eq (di : bq27510_device_info) (h : di.client_adapter = true) :
    bq27510_battery_time_to_full_now di = (raw16 di 0x18 : Int) := by
  simp [bq27510_battery_time_to_full_now, BQ27510_REG_TTF, bq27x10_read_word di _ _ h]

theorem get_property_ret_nonneg (v : Int) (h : 0 ≤ v) : get_property_ret v = 0 := by
  unfold get_property_ret
  split_ifs with hlt
  · omega
  · rfl

/-- C12 fails as stated: with no bus adapter the HEALTH property query
returns 0 and reports `POWER_SUPPLY_HEALTH_UNSPEC_FAILURE`, not the error
-ENODEV that `bq27510_battery_health` produced. -/
theorem health_query_error_counterexample :
    bq27510_battery_health { client_adapter := false } = -ENODEV
      ∧ bq27510_battery_get_property POWER_SUPPLY_PROP_HEALTH
          (power_supply_propval.intval 0) 0 { client_adapter := false }
        = (0, power_supply_propval.intval POWER_SUPPLY_HEALTH_UNSPEC_FAILURE)
      ∧ (bq27510_battery_get_property POWER_SUPPLY_PROP_HEALTH
          (power_supply_propval.intval 0) 0 { client_adapter := false }).1 ≠ -ENODEV := by
  decide

/-- C12 (amended): when the register read fails, `bq27510_battery_health`
aborts and returns the raw negative error -ENODEV; the battery source's
HEALTH property query replaces it by `POWER_SUPPLY_HEALTH_UNSPEC_FAILURE` and
returns 0. -/
theorem health_query_error (di : bq27510_device_info) (val : power_supply_propval)
    (manufacturer_id : Nat) (h : di.client_adapter = false) :
    bq27510_battery_health di = -ENODEV
      ∧ bq27510_battery_health di < 0
      ∧ bq27510_battery_get_property POWER_SUPPLY_PROP_HEALTH val manufacturer_id di
          = (0, power_supply_propval.intval POWER_SUPPLY_HEALTH_UNSPEC_FAILURE) := by
  have hh : bq27510_battery_health di = -ENODEV := by
    simp [bq27510_battery_health, bq27x10_read_nodev di _ _ _ h, ENODEV]
  refine ⟨hh, by rw [hh]; decide, ?_⟩
  simp only [bq27510_battery_get_property, hh]
  rfl

/-- Witness for C12 (amended): a session without a bus adapter. -/
theorem health_query_error_witness :
    bq27510_battery_get_property POWER_SUPPLY_PROP_HEALTH (power_supply_propval.intval 7) 0
        { sessionWith [(0x0A, 0x8000)] with client_adapter := false }
      = (0, power_supply_propval.intval POWER_SUPPLY_HEALTH_UNSPEC_FAILURE) :=
  (health_query_error { sessionWith [(0x0A, 0x8000)] with client_adapter := false }
    (power_supply_propval.intval 7) 0 rfl).2.2

/-- C13: when the cached RSOC read fails (no bus adapter),
`bq27510_battery_rsoc` returns 100 and the battery source's CAPACITY property
query reports 100 with return code 0. -/
theorem capacity_query_read_error (di : bq27510_device_info) (val : power_supply_propval)
    (manufacturer_id : Nat) (h : di.client_adapter = false) :
    bq27510_battery_rsoc di = 100
      ∧ bq27510_battery_get_property POWER_SUPPLY_PROP_CAPACITY val manufacturer_id di
          = (0, power_supply_propval.intval 100) := by
  have hr : bq27510_battery_rsoc di = 100 := by
    simp [bq27510_battery_rsoc, bq27x10_read_nodev di _ _ _ h, ENODEV]
  refine ⟨hr, ?_⟩
  simp only [bq27510_battery_get_property, hr]
  rfl

/-- Witness for C13: a session without a bus adapter whose cache holds raw
RSOC 57. -/
theorem capacity_query_read_error_witness :
    bq27510_battery_rsoc { sessionWith [(0x2C, 57)] with client_adapter := false } = 100
      ∧ bq27510_battery_get_property POWER_SUPPLY_PROP_CAPACITY (power_supply_propval.intval 7) 0
          { sessionWith [(0x2C, 57)] with client_adapter := false }
        = (0, power_supply_propval.intval 100) :=
  capacity_query_read_error { sessionWith [(0x2C, 57)] with client_adapter := false }
    (power_supply_propval.intval 7) 0 rfl

/-- C14: for every raw temperature t in the cache (read succeeding) the
battery source's TEMP property query returns 0 and reports t - 2731, tenths
of a degree Celsius. -/
theorem temp_query_celsius (di : bq27510_device_info) (val : power_supply_propval)
    (manufacturer_id : Nat) (h : di.client_adapter = true) :
    bq27510_battery_get_property POWER_SUPPLY_PROP_TEMP val manufacturer_id di
      = (0, power_supply_propval.intval (celsius_tenths (raw16 di 0x06))) := by
  simp only [bq27510_battery_get_property, battery_temperature_eq di h,
    get_property_ret_nonneg _ (Int.natCast_nonneg _), celsius_tenths, OFFSET_KELVIN_CELSIUS_DECI]

/-- Witness for C14: raw temperature 2751 reports 20. -/
theorem temp_query_celsius_witness :
    bq27510_battery_get_property POWER_SUPPLY_PROP_TEMP (power_supply_propval.intval 7) 0
        (sessionWith [(0x06, 2751)])
      = (0, power_supply_propval.intval 20) :=
  (temp_query_celsius (sessionWith [(0x06, 2751)]) (power_supply_propval.intval 7) 0 rfl).trans
    (by decide)

theorem battery_current_eq (di : bq27510_device_info) (h : di.client_adapter = true) :
    bq27510_battery_current di
      = if raw16 di 0x14 > 32767 then (raw16 di 0x14 : Int) - 65535 else (raw16 di 0x14 : Int) := by
  simp only [bq27510_battery_current, BQ27510_REG_AI, bq27x10_read_word di _ _ h,
    CURRENT_OVF_THRESHOLD]
  by_cases hc : raw16 di 0x14 > 32767 <;> simp [hc]

/-- C15 fails as stated: at raw temperature 2731 (reported Celsius-tenths 0,
so not above 0 degrees) with only the XCHG flag set, health is OVERHEAT, not
COLD. -/
theorem health_cold_threshold_counterexample :
    (sessionWith [(0x0A, 0x0400), (0x06, 2731)]).client_adapter = true
      ∧ (raw16 (sessionWith [(0x0A, 0x0400), (0x06, 2731)]) 0x0A).testBit 10 = true
      ∧ (raw16 (sessionWith [(0x0A, 0x0400), (0x06, 2731)]) 0x0A).testBit 15 = false
      ∧ (raw16 (sessionWith [(0x0A, 0x0400), (0x06, 2731)]) 0x0A).testBit 14 = false
      ∧ raw16 (sessionWith [(0x0A, 0x0400), (0x06, 2731)]) 0x06 ≤ 2731
      ∧ celsius_tenths (raw16 (sessionWith [(0x0A, 0x0400), (0x06, 2731)]) 0x06) ≤ 0
      ∧ bq27510_battery_health (sessionWith [(0x0A, 0x0400), (0x06, 2731)])
          = POWER_SUPPLY_HEALTH_OVERHEAT
      ∧ bq27510_battery_health (sessionWith [(0x0A, 0x0400), (0x06, 2731)])
          ≠ POWER_SUPPLY_HEALTH_COLD := by
  decide

/-- C15 (amended): when flags bit 10 (XCHG) or bit 11 (CHG_INH) is set and
neither over-temperature bit is set, health is COLD exactly when the
consumer-facing temperature is below 0 (reported Celsius-tenths value
raw - 2731 < 0, i.e. raw < 2731), and OVERHEAT otherwise. -/
theorem health_cold_threshold (di : bq27510_device_info)
    (h : di.client_adapter = true)
    (hx : (raw16 di 0x0A).testBit 10 = true ∨ (raw16 di 0x0A).testBit 11 = true)
    (h15 : (raw16 di 0x0A).testBit 15 = false)
    (h14 : (raw16 di 0x0A).testBit 14 = false) :
    bq27510_battery_health di
        = (if celsius_tenths (raw16 di 0x06) < 0 then POWER_SUPPLY_HEALTH_COLD
           else POWER_SUPPLY_HEALTH_OVERHEAT)
      ∧ (bq27510_battery_health di = POWER_SUPPLY_HEALTH_COLD ↔ raw16 di 0x06 < 2731)
      ∧ (bq27510_battery_health di = POWER_SUPPLY_HEALTH_OVERHEAT ↔ 2731 ≤ raw16 di 0x06) := by
  have hh : bq27510_battery_health di
      = (if raw16 di 0x06 < 2731 then POWER_SUPPLY_HEALTH_COLD
         else POWER_SUPPLY_HEALTH_OVERHEAT) := by
    simp only [bq27510_battery_health, BQ27510_REG_FLAGS, bq27x10_read_word di _ _ h,
      battery_temperature_eq di h, land_bit_ne_zero_iff, land_two_bits_ne_zero_iff,
      FLAG_BIT_OTC, FLAG_BIT_OTD, FLAG_BIT_XCHG, FLAG_BIT_CHG_INH, OFFSET_KELVIN_CELSIUS_DECI]
    simp [h15, h14, hx]
  refine ⟨?_, ?_, ?_⟩
  · rw [hh]
    unfold celsius_tenths
    by_cases hc : raw16 di 0x06 < 2731
    · have : (raw16 di 0x06 : Int) - 2731 < 0 := by omega
      simp [hc, this]
    · have : ¬ (raw16 di 0x06 : Int) - 2731 < 0 := by omega
      simp [hc, this]
  · rw [hh]
    by_cases hc : raw16 di 0x06 < 2731 <;>
      simp [hc, POWER_SUPPLY_HEALTH_COLD, POWER_SUPPLY_HEALTH_OVERHEAT]
  · rw [hh]
    by_cases hc : raw16 di 0x06 < 2731
    · simp [hc, POWER_SUPPLY_HEALTH_COLD, POWER_SUPPLY_HEALTH_OVERHEAT]
    · simp [hc, POWER_SUPPLY_HEALTH_COLD, POWER_SUPPLY_HEALTH_OVERHEAT]
      omega

/-- Witness for C15 (amended): charge inhibited at raw temperature 2730 is
COLD. -/
theorem health_cold_threshold_witness :
    bq27510_battery_health (sessionWith [(0x0A, 0x0800), (0x06, 2730)])
      = POWER_SUPPLY_HEALTH_COLD :=
  ((health_cold_threshold (sessionWith [(0x0A, 0x0800), (0x06, 2730)]) rfl
      (Or.inr (by decide)) (by decide) (by decide)).2.1).2 (by decide)

/-- C16: for every cache whose read succeeds the battery source's property
query returns 0 and reports VOLTAGE_NOW = raw voltage * 1000, CURRENT_NOW =
derived signed current * 1000 and CHARGE_FULL = raw full-charge capacity *
1000. -/
theorem query_scaled_by_1000 (di : bq27510_device_info) (val : power_supply_propval)
    (manufacturer_id : Nat) (h : di.client_adapter = true) :
    bq27510_battery_get_property POWER_SUPPLY_PROP_VOLTAGE_NOW val manufacturer_id di
        = (0, power_supply_propval.intval ((raw16 di 0x08 : Int) * 1000))
      ∧ bq27510_battery_get_property POWER_SUPPLY_PROP_CURRENT_NOW val manufacturer_id di
        = (0, power_supply_propval.intval (bq27510_battery_current di * 1000))
      ∧ bq27510_battery_current di
        = (if raw16 di 0x14 > 32767 then (raw16 di 0x14 : Int) - 65535
           else (raw16 di 0x14 : Int))
      ∧ bq27510_battery_get_property POWER_SUPPLY_PROP_CHARGE_FULL val manufacturer_id di
        = (0, power_supply_propval.intval ((raw16 di 0x12 : Int) * 1000)) := by
  refine ⟨?_, rfl, battery_current_eq di h, ?_⟩
  · have hn : (0 : Int) ≤ (raw16 di 0x08 : Int) * 1000 := by omega
    simp only [bq27510_battery_get_property, battery_voltage_eq di h,
      get_property_ret_nonneg _ hn]
  · have hn : (0 : Int) ≤ (raw16 di 0x12 : Int) * 1000 := by omega
    simp only [bq27510_battery_get_property, battery_max_level_eq di h,
      get_property_ret_nonneg _ hn]

/-- Witness for C16: 3700 mV, raw current 40000 and 1500 mAh. -/
theorem query_scaled_by_1000_witness :
    bq27510_battery_get_property POWER_SUPPLY_PROP_VOLTAGE_NOW (power_supply_propval.intval 7) 0
        (sessionWith [(0x08, 3700), (0x14, 40000), (0x12, 1500)])
        = (0, power_supply_propval.intval 3700000)
      ∧ bq27510_battery_get_property POWER_SUPPLY_PROP_CURRENT_NOW
          (power_supply_propval.intval 7) 0
          (sessionWith [(0x08, 3700), (0x14, 40000), (0x12, 1500)])
        = (0, power_supply_propval.intval (-25535000))
      ∧ bq27510_battery_get_property POWER_SUPPLY_PROP_CHARGE_FULL
          (power_supply_propval.intval 7) 0
          (sessionWith [(0x08, 3700), (0x14, 40000), (0x12, 1500)])
        = (0, power_supply_propval.intval 1500000) :=
  ⟨(query_scaled_by_1000 (sessionWith [(0x08, 3700), (0x14, 40000), (0x12, 1500)])
      (power_supply_propval.intval 7) 0 rfl).1.trans (by decide),
   (query_scaled_by_1000 (sessionWith [(0x08, 3700), (0x14, 40000), (0x12, 1500)])
      (power_supply_propval.intval 7) 0 rfl).2.1.trans (by decide),
   (query_scaled_by_1000 (sessionWith [(0x08, 3700), (0x14, 40000), (0x12, 1500)])
      (power_supply_propval.intval 7) 0 rfl).2.2.2.trans (by decide)⟩

/-! ## Cached read and register map -/

/-- C17: on a session with a bus adapter `bq27x10_read` returns 0 and yields
the byte `regbuf[reg]` (0..255) when `b_single` is set and the little-endian
composite `regbuf[reg] + 256 * regbuf[reg+1]` (0..65535) otherwise; without
an adapter it returns -ENODEV and leaves the output value as it was. -/
theorem bq27x10_read_contract (reg : Nat) (v : Int) (di : bq27510_device_info) :
    (di.client_adapter = true →
      bq27x10_read reg v true di = (0, (regbuf_at di reg : Int))
        ∧ regbuf_at di reg ≤ 255
        ∧ bq27x10_read reg v false di
            = (0, ((regbuf_at di reg + 256 * regbuf_at di (reg + 1) : Nat) : Int))
        ∧ regbuf_at di reg + 256 * regbuf_at di (reg + 1) ≤ 65535
        ∧ (∀ lo hi : Fin 256, di.regbuf[reg]? = some lo → di.regbuf[reg + 1]? = some hi →
            bq27x10_read reg v true di = (0, (lo.val : Int))
              ∧ bq27x10_read reg v false di = (0, ((lo.val + 256 * hi.val : Nat) : Int))))
    ∧ (di.client_adapter = false →
        ∀ b, bq27x10_read reg v b di = (-ENODEV, v)) := by
  constructor
  · intro h
    have h0 : regbuf_at di reg < 256 := (di.regbuf.getD reg 0).isLt
    have h1 : regbuf_at di (reg + 1) < 256 := (di.regbuf.getD (reg + 1) 0).isLt
    have hs : bq27x10_read reg v true di = (0, (regbuf_at di reg : Int)) := by
      simp [bq27x10_read, h]
    have hw : bq27x10_read reg v false di
        = (0, ((regbuf_at di reg + 256 * regbuf_at di (reg + 1) : Nat) : Int)) :=
      bq27x10_read_word di reg v h
    refine ⟨hs, by omega, hw, by omega, ?_⟩
    intro lo hi hlo hhi
    have e0 : regbuf_at di reg = lo.val := by
      simp [regbuf_at, List.getD_eq_getElem?_getD, hlo]
    have e1 : regbuf_at di (reg + 1) = hi.val := by
      simp [regbuf_at, List.getD_eq_getElem?_getD, hhi]
    rw [hs, hw, e0, e1]
    exact ⟨rfl, rfl⟩
  · intro h b
    exact bq27x10_read_nodev di reg v b h

/-- Witness for C17: the flags register 0x1234 read as a byte and as a word,
and a read without an adapter. -/
theorem bq27x10_read_contract_witness :
    bq27x10_read 0x0A 7 true (sessionWith [(0x0A, 0x1234)]) = (0, 0x34)
      ∧ bq27x10_read 0x0A 7 false (sessionWith [(0x0A, 0x1234)]) = (0, 0x1234)
      ∧ bq27x10_read 0x0A 7 false
          { sessionWith [(0x0A, 0x1234)] with client_adapter := false } = (-ENODEV, 7) :=
  ⟨((bq27x10_read_contract 0x0A 7 (sessionWith [(0x0A, 0x1234)])).1 rfl).1.trans (by decide),
   ((bq27x10_read_contract 0x0A 7 (sessionWith [(0x0A, 0x1234)])).1 rfl).2.2.1.trans
      (by decide),
   (bq27x10_read_contract 0x0A 7
      { sessionWith [(0x0A, 0x1234)] with client_adapter := false }).2 rfl false⟩

/-- C18 fails as stated: the average current is not read at offset 0x02. A
cache holding 500 at 0x02 derives current 0, and a cache holding 500 at 0x14
(and 0 at 0x02) derives current 500. -/
theorem register_map_current_counterexample :
    raw16 (sessionWith [(0x02, 500)]) 0x02 = 500
      ∧ bq27510_battery_current (sessionWith [(0x02, 500)]) = 0
      ∧ raw16 (sessionWith [(0x14, 500)]) 0x02 = 0
      ∧ bq27510_battery_current (sessionWith [(0x14, 500)]) = 500 := by
  decide

/-- C18 (amended): each property derivation reads its 16-bit field at these
offsets: average current at 0x14 (`BQ27510_REG_AI`; 0x02 is
`BQ27510_REG_ATRATE`, the start of the cached window), temperature at 0x06,
voltage at 0x08, flags at 0x0A, full-charge capacity at 0x12, time-to-empty
at 0x16, time-to-full at 0x18 and relative state of charge at 0x2C. -/
theorem register_map (di : bq27510_device_info) (h : di.client_adapter = true) :
    bq27510_battery_current di
        = (if raw16 di 0x14 > 32767 then (raw16 di 0x14 : Int) - 65535
           else (raw16 di 0x14 : Int))
      ∧ bq27510_battery_temperature di = (raw16 di 0x06 : Int)
      ∧ bq27510_battery_voltage di = (raw16 di 0x08 : Int)
      ∧ bq27510_battery_supply_prop_present di
          = (if (raw16 di 0x0A).testBit 3 = true then 1 else 0)
      ∧ bq27510_battery_max_level di = (raw16 di 0x12 : Int)
      ∧ bq27510_battery_time_to_empty_now di = (raw16 di 0x16 : Int)
      ∧ bq27510_battery_time_to_full_now di = (raw16 di 0x18 : Int)
      ∧ bq27510_battery_rsoc di
          = (if (raw16 di 0x2C = 0 ∨ raw16 di 0x2C = 65535) ∧ (raw16 di 0x0A).testBit 3 = false
             then 100 else min (raw16 di 0x2C : Int) 100)
      ∧ BQ27510_REG_AI = 0x14 ∧ BQ27510_REG_ATRATE = 0x02 ∧ BQ27510_REG_TEMP = 0x06
      ∧ BQ27510_REG_VOLT = 0x08 ∧ BQ27510_REG_FLAGS = 0x0A ∧ BQ27510_REG_FCC = 0x12
      ∧ BQ27510_REG_TTE = 0x16 ∧ BQ27510_REG_TTF = 0x18 ∧ BQ27510_REG_RSOC = 0x2C :=
  ⟨battery_current_eq di h, battery_temperature_eq di h, battery_voltage_eq di h,
   battery_present_eq di h, battery_max_level_eq di h, battery_time_to_empty_eq di h,
   battery_time_to_full_eq di h, battery_rsoc_eq di h,
   rfl, rfl, rfl, rfl, rfl, rfl, rfl, rfl, rfl⟩

/-- Witness for C18 (amended): a cache with a distinct value in each mapped
register. -/
theorem register_map_witness :
    bq27510_battery_current
        (sessionWith [(0x14, 500), (0x06, 2751), (0x08, 3700), (0x2C, 57)]) = 500
      ∧ bq27510_battery_temperature
        (sessionWith [(0x14, 500), (0x06, 2751), (0x08, 3700), (0x2C, 57)]) = 2751
      ∧ bq27510_battery_voltage
        (sessionWith [(0x14, 500), (0x06, 2751), (0x08, 3700), (0x2C, 57)]) = 3700 :=
  ⟨(register_map (sessionWith [(0x14, 500), (0x06, 2751), (0x08, 3700), (0x2C, 57)])
      rfl).1.trans (by decide),
   (register_map (sessionWith [(0x14, 500), (0x06, 2751), (0x08, 3700), (0x2C, 57)])
      rfl).2.1.trans (by decide),
   (register_map (sessionWith [(0x14, 500), (0x06, 2751), (0x08, 3700), (0x2C, 57)])
      rfl).2.2.1.trans (by decide)⟩

/-- C19: battery presence is bit 3 of the flags register:
`bq27510_battery_supply_prop_present` returns 1 when (flags & 0x0008) != 0
and 0 otherwise, and the PRESENT property query reports that value with
return code 0; when the chip cannot be read the query reports 0 (absent)
with return code 0. -/
theorem present_query (di : bq27510_device_info) (val : power_supply_propval)
    (manufacturer_id : Nat) :
    (di.client_adapter = true →
      bq27510_battery_supply_prop_present di
          = (if raw16 di 0x0A &&& 0x0008 ≠ 0 then 1 else 0)
        ∧ bq27510_battery_get_property POWER_SUPPLY_PROP_PRESENT val manufacturer_id di
          = (0, power_supply_propval.intval (if raw16 di 0x0A &&& 0x0008 ≠ 0 then 1 else 0)))
    ∧ (di.client_adapter = false →
      bq27510_battery_supply_prop_present di = -ENODEV
        ∧ bq27510_battery_get_property POWER_SUPPLY_PROP_PRESENT val manufacturer_id di
          = (0, power_supply_propval.intval 0)) := by
  constructor
  · intro h
    have hb : (raw16 di 0x0A &&& 0x0008 ≠ 0) ↔ (raw16 di 0x0A).testBit 3 = true :=
      nat_and_two_pow_ne_zero_iff (raw16 di 0x0A) 3
    have hp : bq27510_battery_supply_prop_present di
        = (if raw16 di 0x0A &&& 0x0008 ≠ 0 then 1 else 0) := by
      rw [battery_present_eq di h]
      by_cases hc : (raw16 di 0x0A).testBit 3 = true
      · rw [if_pos hc, if_pos (hb.2 hc)]
      · rw [if_neg hc, if_neg (fun hx => hc (hb.1 hx))]
    refine ⟨hp, ?_⟩
    simp only [bq27510_battery_get_property, hp]
    by_cases hc : raw16 di 0x0A &&& 0x0008 ≠ 0
    · simp only [if_pos hc]; rfl
    · simp only [if_neg hc]; rfl
  · intro h
    have hp : bq27510_battery_supply_prop_present di = -ENODEV := by
      simp [bq27510_battery_supply_prop_present, bq27x10_read_nodev di _ _ _ h, ENODEV]
    refine ⟨hp, ?_⟩
    simp only [bq27510_battery_get_property, hp]
    rfl

/-- Witness for C19: flags 0x0008 with an adapter, and the same cache without
one. -/
theorem present_query_witness :
    bq27510_battery_get_property POWER_SUPPLY_PROP_PRESENT (power_supply_propval.intval 7) 0
        (sessionWith [(0x0A, 0x0008)]) = (0, power_supply_propval.intval 1)
      ∧ bq27510_battery_get_property POWER_SUPPLY_PROP_PRESENT (power_supply_propval.intval 7) 0
          { sessionWith [(0x0A, 0x0008)] with client_adapter := false }
        = (0, power_supply_propval.intval 0) :=
  ⟨((present_query (sessionWith [(0x0A, 0x0008)]) (power_supply_propval.intval 7) 0).1
      rfl).2.trans (by decide),
   ((present_query { sessionWith [(0x0A, 0x0008)] with client_adapter := false }
      (power_supply_propval.intval 7) 0).2 rfl).2⟩

/-- C20: for every 16-bit raw value v (65535 included) in the time-to-empty
or time-to-full register, read succeeding, the corresponding property query
returns 0 and reports exactly v. -/
theorem time_query_passthrough (di : bq27510_device_info) (val : power_supply_propval)
    (manufacturer_id : Nat) (h : di.client_adapter = true) :
    bq27510_battery_get_property POWER_SUPPLY_PROP_TIME_TO_EMPTY_NOW val manufacturer_id di
        = (0, power_supply_propval.intval (raw16 di 0x16 : Int))
      ∧ bq27510_battery_get_property POWER_SUPPLY_PROP_TIME_TO_FULL_NOW val manufacturer_id di
        = (0, power_supply_propval.intval (raw16 di 0x18 : Int)) := by
  constructor
  · simp only [bq27510_battery_get_property, battery_time_to_empty_eq di h,
      get_property_ret_nonneg _ (Int.natCast_nonneg _)]
  · simp only [bq27510_battery_get_property, battery_time_to_full_eq di h,
      get_property_ret_nonneg _ (Int.natCast_nonneg _)]

/-- Witness for C20: raw 65535 in time-to-empty and raw 90 in time-to-full. -/
theorem time_query_passthrough_witness :
    bq27510_battery_get_property POWER_SUPPLY_PROP_TIME_TO_EMPTY_NOW
        (power_supply_propval.intval 7) 0 (sessionWith [(0x16, 65535), (0x18, 90)])
        = (0, power_supply_propval.intval 65535)
      ∧ bq27510_battery_get_property POWER_SUPPLY_PROP_TIME_TO_FULL_NOW
          (power_supply_propval.intval 7) 0 (sessionWith [(0x16, 65535), (0x18, 90)])
        = (0, power_supply_propval.intval 90) :=
  ⟨(time_query_passthrough (sessionWith [(0x16, 65535), (0x18, 90)])
      (power_supply_propval.intval 7) 0 rfl).1.trans (by decide),
   (time_query_passthrough (sessionWith [(0x16, 65535), (0x18, 90)])
      (power_supply_propval.intval 7) 0 rfl).2.trans (by decide)⟩

/-! ## USB and wall sources -/

/-- C21: whatever the charger classification and the register cache, the
USB source's CURRENT_AVG query reports 500000 and the wall source's reports
1500000, both with return code 0; any property other than ONLINE and
CURRENT_AVG yields -EINVAL on these two sources. -/
theorem charger_sources_current_avg (psp : power_supply_property) (v : Int)
    (s : driver_state) :
    bq27510_usb_get_property POWER_SUPPLY_PROP_CURRENT_AVG v s = (0, 500000)
      ∧ bq27510_wall_get_property POWER_SUPPLY_PROP_CURRENT_AVG v s = (0, 1500000)
      ∧ (psp ≠ POWER_SUPPLY_PROP_ONLINE → psp ≠ POWER_SUPPLY_PROP_CURRENT_AVG →
          bq27510_usb_get_property psp v s = (-EINVAL, v)
            ∧ bq27510_wall_get_property psp v s = (-EINVAL, v)) := by
  refine ⟨rfl, rfl, ?_⟩
  intro h1 h2
  cases psp <;> first
    | exact absurd rfl h1
    | exact absurd rfl h2
    | exact ⟨rfl, rfl⟩

/-- Witness for C21: the STATUS property on a session classified USB. -/
theorem charger_sources_current_avg_witness :
    bq27510_usb_get_property POWER_SUPPLY_PROP_STATUS 7
        (bq27x10_charger_type 500000 (attached (cacheOf [(0x14, 40000)]))) = (-EINVAL, 7)
      ∧ bq27510_wall_get_property POWER_SUPPLY_PROP_STATUS 7
        (bq27x10_charger_type 500000 (attached (cacheOf [(0x14, 40000)]))) = (-EINVAL, 7) :=
  (charger_sources_current_avg POWER_SUPPLY_PROP_STATUS 7
    (bq27x10_charger_type 500000 (attached (cacheOf [(0x14, 40000)])))).2.2
    (by decide) (by decide)

/-! ## Startup identification -/

theorem device_type_attempt_reads (x : control_xfer) (di : bq27510_device_info)
    (trace : List ident_event) :
    device_type_reads (device_type_attempt x di trace).2 = device_type_reads trace + 1 := by
  simp only [device_type_attempt, device_type_reads]
  split_ifs
  · simp [List.count_append, List.count_cons]
  · simp [List.count_append, List.count_cons]

theorem device_type_loop_reads (bus : Nat → control_xfer) (n : Nat) :
    ∀ (k : Nat) (di : bq27510_device_info) (trace : List ident_event),
      device_type_reads (device_type_loop bus n k di trace).2
        = device_type_reads trace + (n + 1) := by
  induction n with
  | zero =>
    intro k di trace
    simp only [device_type_loop]
    exact device_type_attempt_reads _ _ _
  | succ n ih =>
    intro k di trace
    simp only [device_type_loop]
    rw [ih, device_type_attempt_reads]
    omega

/-- C23, evaluated on the code: `bq27x00_get_device_version` always issues
exactly 4 device-type reads, whatever the bus does; when every control read
succeeds it still reads the device type 4 times before the firmware version,
and when only the first one succeeds the three that follow it fail and each
is followed by a hardware reset. -/
theorem get_device_version_reads (bus : Nat → control_xfer) (di : bq27510_device_info) :
    device_type_reads (bq27x00_get_device_version bus di).2.2 = 4
      ∧ (bq27x00_get_device_version (fun _ => control_ok) {}).2.2
          = [ident_event.read_control 1, ident_event.read_control 1,
             ident_event.read_control 1, ident_event.read_control 1,
             ident_event.read_control 2]
      ∧ (bq27x00_get_device_version
            (fun k => if k = 0 then control_ok else control_fail) {}).2.2
          = [ident_event.read_control 1,
             ident_event.read_control 1, ident_event.hw_reset true,
             ident_event.read_control 1, ident_event.hw_reset true,
             ident_event.read_control 1, ident_event.hw_reset true,
             ident_event.read_control 2] := by
  refine ⟨?_, by decide, by decide⟩
  have h := device_type_loop_reads bus 3 0 di []
  simp only [bq27x00_get_device_version]
  unfold device_type_reads at h ⊢
  rw [List.count_append, h]
  simp [List.count_cons, BQ27x00_CONTROL_DEVICE_TYPE, BQ27x00_CONTROL_FW_VERSION]

/-! ## Ranges -/

theorem get_property_ret_nonpos (v : Int) : get_property_ret v ≤ 0 := by
  unfold get_property_ret
  split_ifs with h
  · omega
  · exact le_refl 0

theorem get_property_ret_zero : get_property_ret 0 = 0 := rfl

/-- C24: for every register cache (read succeeding) `bq27510_battery_rsoc`
returns a value in [0, 100]; it returns 0 exactly when the raw RSOC is 0 and
the battery-present flag is set; the value read is never negative, so the
floor to 1 is never applied (the result is 1 only for raw RSOC 1). -/
theorem battery_rsoc_range (di : bq27510_device_info) (h : di.client_adapter = true) :
    0 ≤ bq27510_battery_rsoc di
      ∧ bq27510_battery_rsoc di ≤ 100
      ∧ (bq27510_battery_rsoc di = 0
          ↔ (raw16 di 0x2C = 0 ∧ (raw16 di 0x0A).testBit 3 = true))
      ∧ 0 ≤ (bq27x10_read BQ27510_REG_RSOC 0 false di).2
      ∧ (bq27510_battery_rsoc di = 1 ↔ raw16 di 0x2C = 1) := by
  have hlt := raw16_lt di 0x2C
  have hr := battery_rsoc_eq di h
  have hread : (bq27x10_read BQ27510_REG_RSOC 0 false di).2 = (raw16 di 0x2C : Int) := by
    rw [bq27x10_read_word di _ _ h]; rfl
  by_cases hb : (raw16 di 0x0A).testBit 3 = true
  · have hr2 : bq27510_battery_rsoc di = min (raw16 di 0x2C : Int) 100 := by
      rw [hr]; simp [hb]
    refine ⟨by omega, by omega, ?_, by omega, ?_⟩
    · constructor
      · intro h0; exact ⟨by omega, hb⟩
      · intro h0; omega
    · constructor <;> intro h1 <;> omega
  · have hbf : (raw16 di 0x0A).testBit 3 = false := by simpa using hb
    by_cases hs : raw16 di 0x2C = 0 ∨ raw16 di 0x2C = 65535
    · have hr2 : bq27510_battery_rsoc di = 100 := by
        rw [hr]; simp [hs, hbf]
      refine ⟨by omega, by omega, ?_, by omega, ?_⟩
      · constructor
        · intro h0; omega
        · intro h0; exact absurd h0.2 hb
      · constructor <;> intro h1 <;> omega
    · have hr2 : bq27510_battery_rsoc di = min (raw16 di 0x2C : Int) 100 := by
        rw [hr]; simp [hs]
      refine ⟨by omega, by omega, ?_, by omega, ?_⟩
      · constructor
        · intro h0; omega
        · intro h0; exact absurd h0.2 hb
      · constructor <;> intro h1 <;> omega

/-- Witness for C24: present flag set and raw RSOC 0 gives 0. -/
theorem battery_rsoc_range_witness :
    bq27510_battery_rsoc (sessionWith [(0x0A, 8), (0x2C, 0)]) = 0 :=
  (battery_rsoc_range (sessionWith [(0x0A, 8), (0x2C, 0)]) rfl).2.2.1.2
    ⟨by decide, by decide⟩

/-- C25, evaluated on the code: with no bus adapter the cached read fails
with -ENODEV (-19), and the VOLTAGE_NOW and CHARGE_FULL queries return that
error multiplied by 1000 (-19000), while the TIME_TO_EMPTY_NOW query of the
same session returns -ENODEV itself. -/
theorem voltage_query_error_scaled :
    bq27510_battery_voltage { client_adapter := false } = -ENODEV
      ∧ bq27510_battery_max_level { client_adapter := false } = -ENODEV
      ∧ bq27510_battery_get_property POWER_SUPPLY_PROP_VOLTAGE_NOW
          (power_supply_propval.intval 0) 0 { client_adapter := false }
        = (-19000, power_supply_propval.intval (-19000))
      ∧ bq27510_battery_get_property POWER_SUPPLY_PROP_CHARGE_FULL
          (power_supply_propval.intval 0) 0 { client_adapter := false }
        = (-19000, power_supply_propval.intval (-19000))
      ∧ (bq27510_battery_get_property POWER_SUPPLY_PROP_VOLTAGE_NOW
          (power_supply_propval.intval 0) 0 { client_adapter := false }).1 ≠ -ENODEV
      ∧ bq27510_battery_get_property POWER_SUPPLY_PROP_TIME_TO_EMPTY_NOW
          (power_supply_propval.intval 0) 0 { client_adapter := false }
        = (-ENODEV, power_supply_propval.intval (-ENODEV)) := by
  decide

/-- C26: for every property id and every session state
`bq27510_battery_get_property` never returns a positive value: it returns
-EINVAL for a property outside `bq27510_battery_props`, and otherwise 0 or a
negative error; for STATUS, HEALTH, PRESENT and CURRENT_NOW it returns 0
whether or not the underlying read fails. -/
theorem get_property_never_positive (psp : power_supply_property)
    (val : power_supply_propval) (manufacturer_id : Nat) (di : bq27510_device_info) :
    (bq27510_battery_get_property psp val manufacturer_id di).1 ≤ 0
      ∧ (psp ∉ bq27510_battery_props →
          bq27510_battery_get_property psp val manufacturer_id di = (-EINVAL, val))
      ∧ (psp ∈ [POWER_SUPPLY_PROP_STATUS, POWER_SUPPLY_PROP_HEALTH,
                POWER_SUPPLY_PROP_PRESENT, POWER_SUPPLY_PROP_CURRENT_NOW] →
          (bq27510_battery_get_property psp val manufacturer_id di).1 = 0) := by
  refine ⟨?_, ?_, ?_⟩
  · cases psp <;> simp only [bq27510_battery_get_property] <;> first
      | exact get_property_ret_nonpos _
      | decide
  · intro hn
    cases psp <;> first
      | rfl
      | exact absurd (by decide) hn
  · intro hm
    cases psp <;> simp only [bq27510_battery_get_property] <;> first
      | exact get_property_ret_zero
      | exact absurd hm (by decide)

/-- Witness for C26: ONLINE is not a battery property, and STATUS returns 0
on a session without a bus adapter. -/
theorem get_property_never_positive_witness :
    bq27510_battery_get_property POWER_SUPPLY_PROP_ONLINE (power_supply_propval.intval 7) 0
        (sessionWith [(0x0A, 8)]) = (-EINVAL, power_supply_propval.intval 7)
      ∧ (bq27510_battery_get_property POWER_SUPPLY_PROP_STATUS (power_supply_propval.intval 7) 0
          { sessionWith [(0x0A, 8)] with client_adapter := false }).1 = 0 :=
  ⟨(get_property_never_positive POWER_SUPPLY_PROP_ONLINE (power_supply_propval.intval 7) 0
      (sessionWith [(0x0A, 8)])).2.1 (by decide),
   (get_property_never_positive POWER_SUPPLY_PROP_STATUS (power_supply_propval.intval 7) 0
      { sessionWith [(0x0A, 8)] with client_adapter := false }).2.2 (by decide)⟩

theorem battery_current_nodev (di : bq27510_device_info) (h : di.client_adapter = false) :
    bq27510_battery_current di = 0 := by
  simp [bq27510_battery_current, bq27x10_read_nodev di _ _ _ h, ENODEV]

theorem battery_voltage_nodev (di : bq27510_device_info) (h : di.client_adapter = false) :
    bq27510_battery_voltage di = -19 := by
  simp [bq27510_battery_voltage, bq27x10_read_nodev di _ _ _ h, ENODEV]

theorem battery_max_level_nodev (di : bq27510_device_info) (h : di.client_adapter = false) :
    bq27510_battery_max_level di = -19 := by
  simp [bq27510_battery_max_level, bq27x10_read_nodev di _ _ _ h, ENODEV]

/-- C27: the derived current lies in [-32767, 32767] and, when the read
succeeds, is 0 exactly for raw 0 and raw 65535; the reported values
current * 1000, voltage * 1000 and full-charge capacity * 1000 all lie in the
signed 32-bit range. -/
theorem current_range_no_overflow (di : bq27510_device_info) :
    (-32767 ≤ bq27510_battery_current di ∧ bq27510_battery_current di ≤ 32767)
      ∧ (di.client_adapter = true →
          (bq27510_battery_current di = 0
            ↔ (raw16 di BQ27510_REG_AI = 0 ∨ raw16 di BQ27510_REG_AI = 65535)))
      ∧ (-(2 : Int) ^ 31 ≤ bq27510_battery_current di * 1000
          ∧ bq27510_battery_current di * 1000 < (2 : Int) ^ 31)
      ∧ (-(2 : Int) ^ 31 ≤ bq27510_battery_voltage di * 1000
          ∧ bq27510_battery_voltage di * 1000 < (2 : Int) ^ 31)
      ∧ (-(2 : Int) ^ 31 ≤ bq27510_battery_max_level di * 1000
          ∧ bq27510_battery_max_level di * 1000 < (2 : Int) ^ 31) := by
  have hai := raw16_lt di 0x14
  have hv := raw16_lt di 0x08
  have hf := raw16_lt di 0x12
  have hp : (2 : Int) ^ 31 = 2147483648 := by norm_num
  rw [hp]
  cases h : di.client_adapter with
  | true =>
    have hc := battery_current_eq di h
    have hvolt := battery_voltage_eq di h
    have hfcc := battery_max_level_eq di h
    have hcr : -32767 ≤ bq27510_battery_current di ∧ bq27510_battery_current di ≤ 32767
        ∧ (bq27510_battery_current di = 0 ↔ (raw16 di 0x14 = 0 ∨ raw16 di 0x14 = 65535)) := by
      rw [hc]
      split_ifs with hgt
      · refine ⟨by omega, by omega, ?_⟩
        constructor <;> intro h0 <;> omega
      · refine ⟨by omega, by omega, ?_⟩
        constructor <;> intro h0 <;> omega
    refine ⟨⟨hcr.1, hcr.2.1⟩, fun _ => hcr.2.2, ?_, ?_, ?_⟩
    · constructor <;> omega
    · rw [hvolt]; constructor <;> omega
    · rw [hfcc]; constructor <;> omega
  | false =>
    rw [battery_current_nodev di h, battery_voltage_nodev di h, battery_max_level_nodev di h]
    refine ⟨by decide, ?_, by decide, by decide, by decide⟩
    intro hx
    exact absurd hx (by simp)

/-- Witness for C27: raw current 65535 derives 0. -/
theorem current_range_no_overflow_witness :
    bq27510_battery_current (sessionWith [(0x14, 65535)]) = 0 :=
  ((current_range_no_overflow (sessionWith [(0x14, 65535)])).2.1 rfl).2
    (Or.inr (by decide))

theorem i2c_store_getD_inside (data : List (Fin 256)) :
    ∀ (buf : List (Fin 256)) (off i : Nat), i < data.length → off + data.length ≤ buf.length →
      (i2c_store buf off data).getD (off + i) 0 = data.getD i 0 := by
  induction data with
  | nil => intro buf off i hi; simp at hi
  | cons x xs ih =>
    intro buf off i hi hlen
    simp only [List.length_cons] at hi hlen
    simp only [i2c_store]
    cases i with
    | zero =>
      show (i2c_store (buf.set off x) (off + 1) xs).getD off 0 = (x :: xs).getD 0 0
      rw [i2c_store_getD_outside xs (buf.set off x) (off + 1) off (Or.inl (by omega))]
      have hoff : off < buf.length := by omega
      simp [List.getD_eq_getElem?_getD, List.getElem?_set, hoff]
    | succ j =>
      have := ih (buf.set off x) (off + 1) j (by omega) (by simp; omega)
      rw [show off + (j + 1) = off + 1 + j by omega, this]
      simp

/-- C28: every register offset read by a 16-bit property derivation (0x06,
0x08, 0x0A, 0x12, 0x14, 0x16, 0x18, 0x2C) satisfies
`BQ27510_REG_BUFFER_START <= reg` and `reg + 1 < BQ27510_REG_BUFFER_SIZE`;
both bytes of the read are inside a cache of 0x36 bytes (an Option-returning
index never yields none) and inside the window that a complete bulk refresh
fills, where they are the bytes received at `reg - 2` and `reg - 1`. -/
theorem derivation_regs_in_window (reg : Nat) (h : reg ∈ derivation_regs) :
    derivation_regs = [0x06, 0x08, 0x0A, 0x12, 0x14, 0x16, 0x18, 0x2C]
      ∧ BQ27510_REG_BUFFER_START ≤ reg
      ∧ reg + 1 < BQ27510_REG_BUFFER_SIZE
      ∧ (∀ di : bq27510_device_info, di.regbuf.length = BQ27510_REG_BUFFER_SIZE →
          (∃ lo hi : Fin 256, di.regbuf[reg]? = some lo ∧ di.regbuf[reg + 1]? = some hi
            ∧ raw16 di reg = lo.val + 256 * hi.val))
      ∧ (∀ (bus : i2c_result) (di : bq27510_device_info),
          di.regbuf.length = BQ27510_REG_BUFFER_SIZE →
          bus.rx.length = BQ27510_REG_BUFFER_SIZE - BQ27510_REG_BUFFER_START →
          regbuf_at (bq27x10_read_registers bus 0 di).2 reg
              = (bus.rx.getD (reg - BQ27510_REG_BUFFER_START) 0).val
            ∧ regbuf_at (bq27x10_read_registers bus 0 di).2 (reg + 1)
              = (bus.rx.getD (reg + 1 - BQ27510_REG_BUFFER_START) 0).val) := by
  have hb : 2 ≤ reg ∧ reg + 1 < 54 := by
    simp only [derivation_regs, BQ27510_REG_TEMP, BQ27510_REG_VOLT, BQ27510_REG_FLAGS,
      BQ27510_REG_FCC, BQ27510_REG_AI, BQ27510_REG_TTE, BQ27510_REG_TTF, BQ27510_REG_RSOC,
      List.mem_cons, List.mem_singleton, List.not_mem_nil, or_false] at h
    omega
  refine ⟨rfl, hb.1, hb.2, ?_, ?_⟩
  · intro di hlen
    have hlen2 : di.regbuf.length = 54 := hlen
    have h0 : reg < di.regbuf.length := by omega
    have h1 : reg + 1 < di.regbuf.length := by omega
    refine ⟨di.regbuf[reg], di.regbuf[reg + 1], List.getElem?_eq_getElem h0,
      List.getElem?_eq_getElem h1, ?_⟩
    simp [raw16, regbuf_at, List.getD_eq_getElem?_getD, List.getElem?_eq_getElem h0,
      List.getElem?_eq_getElem h1]
  · intro bus di hlen hrx
    have hlen2 : di.regbuf.length = 54 := hlen
    have hrx2 : bus.rx.length = 52 := hrx
    have htake : bus.rx.take (BQ27510_REG_BUFFER_SIZE - BQ27510_REG_BUFFER_START) = bus.rx := by
      apply List.take_of_length_le
      rw [hrx]
    have hsnd : (bq27x10_read_registers bus 0 di).2
        = { di with regbuf := i2c_store di.regbuf BQ27510_REG_BUFFER_START bus.rx } := by
      rw [read_registers_snd, htake]
      simp
    rw [hsnd]
    have hin := i2c_store_getD_inside bus.rx di.regbuf 2
    constructor
    · have := hin (reg - 2) (by omega) (by omega)
      rw [show 2 + (reg - 2) = reg by omega] at this
      show (List.getD (i2c_store di.regbuf 2 bus.rx) reg 0).val = _
      rw [this]; rfl
    · have := hin (reg + 1 - 2) (by omega) (by omega)
      rw [show 2 + (reg + 1 - 2) = reg + 1 by omega] at this
      show (List.getD (i2c_store di.regbuf 2 bus.rx) (reg + 1) 0).val = _
      rw [this]; rfl

/-- Witness for C28: the RSOC register, the highest offset a derivation
reads. -/
theorem derivation_regs_in_window_witness :
    BQ27510_REG_BUFFER_START ≤ BQ27510_REG_RSOC
      ∧ BQ27510_REG_RSOC + 1 < BQ27510_REG_BUFFER_SIZE :=
  ⟨(derivation_regs_in_window BQ27510_REG_RSOC (by decide)).2.1,
   (derivation_regs_in_window BQ27510_REG_RSOC (by decide)).2.2.1⟩

end Bq27510

/-! # McBSP DAI: the adjusted transfer size -/

namespace OmapMcbsp

theorem c_mod_natCast (b x : Nat) (hx : x ≠ 0) :
    c_mod (b : Int) (x : Int) = some ((b % x : Nat) : Int) := by
  unfold c_mod
  rw [if_neg (by exact_mod_cast hx)]
  rfl

theorem c_div_natCast (b x : Nat) (hx : x ≠ 0) :
    c_div (b : Int) (x : Int) = some ((b / x : Nat) : Int) := by
  unfold c_div
  rw [if_neg (by exact_mod_cast hx)]
  rfl

theorem xfer_size_loop_spec (b x0 : Nat) :
    ∀ (fuel temp x : Nat), 1 ≤ temp → 1 ≤ x → x ≤ x0 → temp * x ≤ b → b / (temp + 1) ≤ x →
      (∀ e, e ∣ b → e ≤ x0 → e ≤ x) → b ≤ temp + fuel →
      ∃ d : Nat, xfer_size_loop (b : Int) fuel (temp : Int) (x : Int) = some (d : Int)
        ∧ d ∣ b ∧ 1 ≤ d ∧ d ≤ x0 ∧ ∀ e, e ∣ b → e ≤ x0 → e ≤ d := by
  intro fuel
  induction fuel with
  | zero =>
    intro temp x ht hx hx0 hmul hdiv hmax hfuel
    have hx1 : x = 1 := by
      have h1 : temp * x ≤ temp * 1 := by omega
      have := Nat.le_of_mul_le_mul_left h1 (by omega)
      omega
    subst hx1
    refine ⟨1, ?_, Nat.one_dvd b, le_refl 1, hx0, hmax⟩
    simp only [xfer_size_loop, c_mod_natCast b 1 (by omega), Nat.mod_one]
    simp
  | succ n ih =>
    intro temp x ht hx hx0 hmul hdiv hmax hfuel
    by_cases hm : b % x = 0
    · refine ⟨x, ?_, Nat.dvd_of_mod_eq_zero hm, hx, hx0, hmax⟩
      simp only [xfer_size_loop, c_mod_natCast b x (by omega), hm]
      simp
    · have hx2 : 2 ≤ x := by
        by_contra hlt
        have : x = 1 := by omega
        subst this
        exact hm (Nat.mod_one b)
      have h2t : temp * 2 ≤ b := le_trans (Nat.mul_le_mul_left temp hx2) hmul
      have htb : temp + 1 ≤ b := by omega
      have hcast : ((temp : Int) + 1) = ((temp + 1 : Nat) : Int) := by push_cast; rfl
      have hmi : ((b % x : Nat) : Int) ≠ 0 := by exact_mod_cast hm
      have hstep : xfer_size_loop (b : Int) (n + 1) (temp : Int) (x : Int)
          = xfer_size_loop (b : Int) n ((temp + 1 : Nat) : Int) ((b / (temp + 1) : Nat) : Int) := by
        simp only [xfer_size_loop, c_mod_natCast b x (by omega)]
        rw [if_pos hmi, hcast, c_div_natCast b (temp + 1) (by omega)]
      rw [hstep]
      apply ih (temp + 1) (b / (temp + 1)) (by omega)
        (Nat.div_pos htb (by omega)) (le_trans hdiv hx0) (Nat.mul_div_le b (temp + 1))
        (Nat.div_le_div_left (by omega) (by omega))
      · intro e he he0
        have hex : e ≤ x := hmax e he he0
        have hne : e ≠ x := by
          intro heq
          subst heq
          exact hm (Nat.mod_eq_zero_of_dvd he)
        have hlt : e < x := by omega
        obtain ⟨q, hq⟩ := he
        have hepos : 0 < e := by
          rcases Nat.eq_zero_or_pos e with h0 | h0
          · subst h0; simp at hq; omega
          · exact h0
        have h1 : temp * e < temp * x := Nat.mul_lt_mul_of_pos_left hlt (by omega)
        have h2 : e * temp < e * q := by
          rw [← hq, Nat.mul_comm e temp]; omega
        have h3 : temp < q := Nat.lt_of_mul_lt_mul_left h2
        rw [Nat.le_div_iff_mul_le (by omega)]
        calc e * (temp + 1) ≤ e * q := Nat.mul_le_mul_left e h3
          _ = b := hq.symm
      · omega

/-- C29: in the transfer-size adjustment of `omap_mcbsp_dai_hw_params`, for
every threshold x >= 1 and buffer size B: if x > B the transfer size becomes
0; otherwise the while loop terminates (B evaluations of its condition are
always enough) without dividing by zero, and the resulting transfer size is
the largest divisor of B that does not exceed x, which is x itself when x
divides B. -/
theorem adjust_xfer_size_largest_divisor (x b : Int) (hx : 1 ≤ x) :
    (x > b → ∀ fuel, adjust_xfer_size fuel x b = some 0)
      ∧ (x ≤ b → ∀ fuel, b.toNat ≤ fuel →
          ∃ d : Int, adjust_xfer_size fuel x b = some d
            ∧ 1 ≤ d ∧ d ≤ x ∧ d ∣ b
            ∧ (∀ e : Int, 1 ≤ e → e ≤ x → e ∣ b → e ≤ d)
            ∧ (x ∣ b → d = x)) := by
  have hx0 : x ≠ 0 := by omega
  constructor
  · intro hgt fuel
    unfold adjust_xfer_size
    rw [if_pos hx0, if_pos hgt]
  · intro hle fuel hfuel
    lift x to ℕ using (by omega) with xn
    lift b to ℕ using (by omega) with bn
    have hxn : 1 ≤ xn := by exact_mod_cast hx
    have hlen : xn ≤ bn := by exact_mod_cast hle
    have hfn : bn ≤ fuel := by simpa using hfuel
    have htemp : 1 ≤ bn / xn := Nat.div_pos hlen (by omega)
    have hdivlt : bn / (bn / xn + 1) ≤ xn := by
      apply Nat.le_of_lt
      rw [Nat.div_lt_iff_lt_mul (by omega)]
      exact Nat.lt_mul_div_succ bn (by omega)
    obtain ⟨d, hd, hdvd, hd1, hdx, hmax⟩ :=
      xfer_size_loop_spec bn xn fuel (bn / xn) xn htemp hxn (le_refl xn)
        (Nat.div_mul_le_self bn xn) hdivlt (fun e _ he => he) (by omega)
    have hmaxI : ∀ e : Int, 1 ≤ e → e ≤ (xn : Int) → e ∣ (bn : Int) → e ≤ (d : Int) := by
      intro e he1 hex hed
      lift e to ℕ using (by omega) with en
      have h1 : en ∣ bn := Int.natCast_dvd_natCast.mp hed
      have h2 : en ≤ xn := by exact_mod_cast hex
      exact_mod_cast hmax en h1 h2
    refine ⟨(d : Int), ?_, by exact_mod_cast hd1, by exact_mod_cast hdx,
      Int.natCast_dvd_natCast.mpr hdvd, hmaxI, ?_⟩
    · unfold adjust_xfer_size
      rw [if_pos hx0, if_neg (by omega), c_div_natCast bn xn (by omega)]
      exact hd
    · intro hxb
      have h1 := hmaxI (xn : Int) hx (le_refl _) hxb
      have h2 : (d : Int) ≤ (xn : Int) := by exact_mod_cast hdx
      omega

/-- Witness for C29: threshold 4 and buffer size 10 give transfer size 2,
threshold 256 and buffer size 4410 give 245, and threshold 8 with buffer
size 7 gives 0. -/
theorem adjust_xfer_size_largest_divisor_witness :
    adjust_xfer_size 10 4 10 = some 2
      ∧ adjust_xfer_size 4410 256 4410 = some 245
      ∧ adjust_xfer_size 0 8 7 = some 0 := by
  refine ⟨?_, ?_, (adjust_xfer_size_largest_divisor 8 7 (by decide)).1 (by decide) 0⟩
  · obtain ⟨d, hd, h1, h2, h3, h4, _⟩ :=
      (adjust_xfer_size_largest_divisor 4 10 (by decide)).2 (by decide) 10 (by decide)
    have hd2 : (2 : Int) ≤ d := h4 2 (by decide) (by decide) (by decide)
    have hne3 : d ≠ 3 := by intro h; rw [h] at h3; revert h3; decide
    have hne4 : d ≠ 4 := by intro h; rw [h] at h3; revert h3; decide
    have : d = 2 := by omega
    rw [hd, this]
  · decide

end OmapMcbsp

/-! # Board revision tests: Avocet -/

namespace BoardBoxer

/-- C30: for every value of `system_rev`: if `is_avocet` holds (bits 7..4
equal 0x7) then exactly one of `is_avocet_board_evt0`,
`is_avocet_board_evt1a` and `is_avocet_board_evt1b_later` is true; if it does
not hold then all three are false. -/
theorem avocet_revision_tests (system_rev : Nat) :
    (is_avocet system_rev ≠ 0 ↔ (system_rev / 16) % 16 = 7)
      ∧ (is_avocet system_rev ≠ 0 →
          (is_avocet_board_evt0 system_rev = 1 ∧ is_avocet_board_evt1a system_rev = 0
              ∧ is_avocet_board_evt1b_later system_rev = 0)
            ∨ (is_avocet_board_evt0 system_rev = 0 ∧ is_avocet_board_evt1a system_rev = 1
              ∧ is_avocet_board_evt1b_later system_rev = 0)
            ∨ (is_avocet_board_evt0 system_rev = 0 ∧ is_avocet_board_evt1a system_rev = 0
              ∧ is_avocet_board_evt1b_later system_rev = 1))
      ∧ (is_avocet system_rev = 0 →
          is_avocet_board_evt0 system_rev = 0 ∧ is_avocet_board_evt1a system_rev = 0
            ∧ is_avocet_board_evt1b_later system_rev = 0) := by
  have hmask : ∀ n : Nat, n &&& 0x0F = n % 16 := fun n =>
    Nat.and_pow_two_sub_one_eq_mod n 4
  refine ⟨?_, ?_, ?_⟩
  · unfold is_avocet PRODUCT_AVOCET
    rw [hmask, Nat.shiftRight_eq_div_pow]
    split_ifs with h
    · simpa using h
    · simpa using h
  · intro ha
    unfold is_avocet_board_evt0 is_avocet_board_evt1a is_avocet_board_evt1b_later
      BOARD_AVOCET_REV_EVT0 BOARD_AVOCET_REV_EVT1A BOARD_AVOCET_REV_EVT1B
    rw [hmask]
    rcases Nat.lt_or_ge (system_rev % 16) 1 with h0 | h0
    · left
      have : system_rev % 16 = 0 := by omega
      simp [ha, this]
    · rcases Nat.lt_or_ge (system_rev % 16) 2 with h1 | h1
      · right; left
        have : system_rev % 16 = 1 := by omega
        simp [ha, this]
      · right; right
        have hn0 : system_rev % 16 ≠ 0 := by omega
        have hn1 : system_rev % 16 ≠ 1 := by omega
        simp [ha, hn0, hn1, h1]
  · intro ha
    unfold is_avocet_board_evt0 is_avocet_board_evt1a is_avocet_board_evt1b_later
    simp [ha]

/-- Witness for C30: revision 0x72 is an Avocet EVT1B-or-later board and
revision 0x62 is no Avocet board. -/
theorem avocet_revision_tests_witness :
    (is_avocet_board_evt0 0x72 = 0 ∧ is_avocet_board_evt1a 0x72 = 0
        ∧ is_avocet_board_evt1b_later 0x72 = 1)
      ∧ (is_avocet_board_evt0 0x62 = 0 ∧ is_avocet_board_evt1a 0x62 = 0
        ∧ is_avocet_board_evt1b_later 0x62 = 0) := by
  refine ⟨?_, (avocet_revision_tests 0x62).2.2 (by decide)⟩
  rcases (avocet_revision_tests 0x72).2.1 (by decide) with h | h | h
  · exact absurd h.1 (by decide)
  · exact absurd h.2.1 (by decide)
  · exact h

end BoardBoxer
